import Mathlib

/-!
# Fonttik: region masks, luminance, contrast and the frame pipeline

A shallow embedding of `src/src/AppSettings.cpp`, `src/src/Fonttik.cpp` and
`src/src/TextDetectionParams.h`.

Conventions of the embedding
* `float`/`double` values are exact numbers: configuration values are rationals,
  luminance code is generic over a linear ordered field `K` and takes the C
  library function `pow` as an argument. Theorems about luminance values
  instantiate `K` with the reals and `pow` with the real power function, so
  floating-point rounding is not part of the model.
* A `cv::Mat` is its dimensions together with a pixel function `px row col`.
* A C++ exception is an `Except.error`; a function without `try`/`catch`
  propagates the errors of what it calls.
-/

namespace tik

/-! ## OpenCV data types -/

/-- An 8-bit channel value (`uchar`). -/
abbrev uchar := Fin 256

/-- A three-component vector (`cv::Vec<T, 3>`); `c0`, `c1`, `c2` are `v[0]`, `v[1]`, `v[2]`. -/
structure Vec3 (α : Type) where
  c0 : α
  c1 : α
  c2 : α
deriving DecidableEq, Repr

/-- The 8-bit three-channel pixel `cv::Vec3b`. -/
abbrev Vec3b := Vec3 uchar

/-- A matrix (`cv::Mat`): `rows`, `cols` and the element at row `r`, column `c`. -/
structure Mat (α : Type) where
  rows : Nat
  cols : Nat
  px : Nat → Nat → α

/-- The integer rectangle `cv::Rect`. -/
structure Rect where
  x : Int
  y : Int
  width : Int
  height : Int
deriving DecidableEq, Repr

/-- The fractional rectangle `cv::Rect2f`. -/
structure Rect2f where
  x : ℚ
  y : ℚ
  width : ℚ
  height : ℚ
deriving DecidableEq, Repr

/-- Conversion of a floating value to `int`: truncation toward zero. -/
def truncToInt (q : ℚ) : Int :=
  if 0 ≤ q then Int.floor q else Int.ceil q

/-- The matrix `cv::Mat(rows, cols, type, cv::Scalar(v))`: every element is `v`. -/
def Mat.filled {α : Type} (rows cols : Nat) (v : α) : Mat α :=
  { rows := rows, cols := cols, px := fun _ _ => v }

/-- The method `Mat::empty()`. -/
def Mat.empty {α : Type} (m : Mat α) : Bool :=
  m.rows == 0 || m.cols == 0

/-- The check `cv::Mat::Mat(const Mat& m, const Rect& roi)` asserts on a region of interest:
`0 <= roi.x && 0 <= roi.width && roi.x + roi.width <= m.cols &&
 0 <= roi.y && 0 <= roi.height && roi.y + roi.height <= m.rows`. -/
def Rect.insideDims (roi : Rect) (rows cols : Nat) : Bool :=
  decide (0 ≤ roi.x) && decide (0 ≤ roi.width) && decide (roi.x + roi.width ≤ (cols : Int)) &&
  decide (0 ≤ roi.y) && decide (0 ≤ roi.height) && decide (roi.y + roi.height ≤ (rows : Int))

/-- Pixel membership of a rectangle: column `c` in `[x, x + width)` and row `r` in
`[y, y + height)`. -/
def Rect.containsPx (roi : Rect) (r c : Nat) : Bool :=
  decide (roi.y ≤ (r : Int)) && decide ((r : Int) < roi.y + roi.height) &&
  decide (roi.x ≤ (c : Int)) && decide ((c : Int) < roi.x + roi.width)

/-- The two statements `cv::Mat subMatrix = mat(roi); subMatrix.setTo(v);`: the region of
interest shares its data with `mat`, so the elements of `mat` inside `roi` become `v`. The
region-of-interest constructor raises `cv::Exception` when `roi` is not inside the matrix. -/
def Mat.setToRoi {α : Type} (mat : Mat α) (roi : Rect) (v : α) : Except String (Mat α) :=
  if roi.insideDims mat.rows mat.cols then
    .ok { mat with px := fun r c => if roi.containsPx r c then v else mat.px r c }
  else
    .error "cv::Exception: roi outside of the matrix"

/-! ## AppSettings -/

/-- The detection backends of `AppSettings`. -/
inductive DetectionBackend where
  | EAST
  | DB
deriving DecidableEq, Repr

/-- The four-component `cv::Scalar`. -/
structure Scalar where
  v0 : ℚ
  v1 : ℚ
  v2 : ℚ
  v3 : ℚ
deriving DecidableEq, Repr

/-- The fields `AppSettings::init` assigns, with the two static fields of `Video` it sets
(`framesToSkip`, `frameOutputInterval`). -/
structure AppSettings where
  detectionBackend : DetectionBackend
  focusMasks : List Rect2f
  ignoreMasks : List Rect2f
  dbgSaveLuminanceMap : Bool
  dbgSaveTexboxOutline : Bool
  dbgSaveRawTextboxOutline : Bool
  dbgSaveSeparateTextboxes : Bool
  dbgSaveHistograms : Bool
  dbgSaveLuminanceMasks : Bool
  useTextRecognition : Bool
  printResultValues : Bool
  dbgSaveLogs : Bool
  useDPI : Bool
  targetDPI : Int
  targetResolution : Int
  outlineColorPass : Scalar
  outlineColorWarning : Scalar
  outlineColorFail : Scalar
  outlineColorUnrecognized : Scalar
  videoFramesToSkip : Int
  videoFrameOutputInterval : Int
deriving DecidableEq, Repr

/-! ## Configuration documents -/

/-- A JSON value (`nlohmann::json`); every number is an exact rational. -/
inductive Json where
  | null
  | bool (b : Bool)
  | num (q : ℚ)
  | str (s : String)
  | arr (items : List Json)
  | obj (members : List (String × Json))

/-- Lookup of a key among the members of an object; an absent key reads as `null`. -/
def Json.lookup (key : String) : List (String × Json) → Json
  | [] => Json.null
  | (k, v) :: rest => if k = key then v else Json.lookup key rest

/-- The expression `data[key]` on a non-const value: `null` behaves as an empty object, an
absent key reads as `null`, and a value that is neither `null` nor an object raises
`type_error`. -/
def Json.getKey (data : Json) (key : String) : Except String Json :=
  match data with
  | Json.null => .ok Json.null
  | Json.obj members => .ok (Json.lookup key members)
  | _ => .error "type_error: cannot use operator[] with a string argument"

/-- The expression `data[i]` with a numeric index `i < data.size()`: defined on arrays only. -/
def Json.getIdx (data : Json) (i : Nat) : Except String Json :=
  match data with
  | Json.arr items => .ok (items.getD i Json.null)
  | _ => .error "type_error: cannot use operator[] with a numeric argument"

/-- The expression `data.size()`: 0 for `null`, the number of elements of an array or
object, 1 otherwise. -/
def Json.size : Json → Nat
  | Json.null => 0
  | Json.arr items => items.length
  | Json.obj members => members.length
  | _ => 1

/-- The values the iteration `data.begin() ... data.end()` visits: none for `null`, the
elements of an array, the member values of an object, the value itself otherwise. -/
def Json.elements : Json → List Json
  | Json.null => []
  | Json.arr items => items
  | Json.obj members => members.map (fun kv => kv.2)
  | Json.bool b => [Json.bool b]
  | Json.num q => [Json.num q]
  | Json.str s => [Json.str s]

/-- The comparison `data == "text"`: true exactly for the string `text`. -/
def Json.isString (data : Json) (text : String) : Bool :=
  match data with
  | Json.str s => s == text
  | _ => false

/-- Conversion to `bool`: only a boolean converts. -/
def Json.toBool : Json → Except String Bool
  | Json.bool b => .ok b
  | _ => .error "type_error: type must be boolean"

/-- Conversion to `float`: a number converts, a boolean converts to 0 or 1. -/
def Json.toFloat : Json → Except String ℚ
  | Json.num q => .ok q
  | Json.bool b => .ok (if b then 1 else 0)
  | _ => .error "type_error: type must be number"

/-- Conversion to `int`: a number is truncated, a boolean converts to 0 or 1. -/
def Json.toInt : Json → Except String Int
  | Json.num q => .ok (truncToInt q)
  | Json.bool b => .ok (if b then 1 else 0)
  | _ => .error "type_error: type must be number"

/-- The function `AppSettings::RectFromJson<float>(data)`. -/
def RectFromJson (data : Json) : Except String Rect2f := do
  let x ← (← data.getKey "x").toFloat
  let y ← (← data.getKey "y").toFloat
  let w ← (← data.getKey "w").toFloat
  let h ← (← data.getKey "h").toFloat
  return { x := x, y := y, width := w, height := h }

/-- The loop body `v[i] = (i < size) ? static_cast<int>(data[i]) : 1` of `ColorFromJson`. -/
def colorComponent (data : Json) (i : Nat) : Except String ℚ :=
  if i < data.size then do
    let n ← (← data.getIdx i).toInt
    return (n : ℚ)
  else
    return 1

/-- The function `AppSettings::ColorFromJson(data)`: four components, then `v[0]` and `v[2]`
are swapped through the `int` variable `aux`. -/
def ColorFromJson (data : Json) : Except String Scalar := do
  let v0 ← colorComponent data 0
  let v1 ← colorComponent data 1
  let v2 ← colorComponent data 2
  let v3 ← colorComponent data 3
  let aux : Int := truncToInt v2
  return { v0 := (aux : ℚ), v1 := v1, v2 := v0, v3 := v3 }

/-- The pixel rectangle `cv::Rect absRect(rect.x * width, rect.y * height,
rect.width * width, rect.height * height)`: each product is converted to `int`. -/
def absRect (rect : Rect2f) (width height : Nat) : Rect :=
  { x := truncToInt (rect.x * width)
    y := truncToInt (rect.y * height)
    width := truncToInt (rect.width * width)
    height := truncToInt (rect.height * height) }

/-- The mask value `cv::Scalar(255, 255, 255)` of a kept pixel. -/
def keepPx : Vec3b := ⟨255, 255, 255⟩

/-- The mask value `cv::Scalar(0, 0, 0)` of an ignored pixel. -/
def ignorePx : Vec3b := ⟨0, 0, 0⟩

/-- One of the two loops of `AppSettings::calculateMask`: for every rectangle in turn, the
pixel rectangle of `mat` is set to `v`. -/
def setRegions (width height : Nat) (v : Vec3b) (mat : Mat Vec3b) (rects : List Rect2f) :
    Except String (Mat Vec3b) :=
  rects.foldlM (fun m rect => m.setToRoi (absRect rect width height) v) mat

/-- The function `AppSettings::calculateMask(width, height)`: everything is ignored, then the focus
regions are kept, then the ignore regions are ignored again. -/
def AppSettings.calculateMask (s : AppSettings) (width height : Nat) :
    Except String (Mat Vec3b) := do
  let mat := Mat.filled height width ignorePx
  let mat ← setRegions width height keepPx mat s.focusMasks
  let mat ← setRegions width height ignorePx mat s.ignoreMasks
  return mat

/-- The function `AppSettings::setFocusMask(focus, ignore)`. -/
def AppSettings.setFocusMask (s : AppSettings) (focus ignore : List Rect2f) : AppSettings :=
  if !focus.isEmpty then
    { s with focusMasks := focus, ignoreMasks := ignore }
  else
    { s with focusMasks := [⟨0, 0, 1, 1⟩], ignoreMasks := ignore }

/-- The result of a step of `AppSettings::init`: the settings after the step, or the
exception thrown together with the settings as they are when it is thrown. -/
abbrev InitResult := Except (String × AppSettings) AppSettings

/-- An assignment `field = settings[key]` to a `bool` field. -/
def loadBool (settings : Json) (key : String) (s : AppSettings)
    (set : AppSettings → Bool → AppSettings) : InitResult :=
  match settings.getKey key >>= Json.toBool with
  | .ok b => .ok (set s b)
  | .error e => .error (e, s)

/-- An assignment `field = settings[key]` to an `int` field. -/
def loadInt (settings : Json) (key : String) (s : AppSettings)
    (set : AppSettings → Int → AppSettings) : InitResult :=
  match settings.getKey key >>= Json.toInt with
  | .ok n => .ok (set s n)
  | .error e => .error (e, s)

/-- An assignment `outlineColors[k] = ColorFromJson(settings["textboxOutlineColors"][key])`. -/
def loadColor (settings : Json) (key : String) (s : AppSettings)
    (set : AppSettings → Scalar → AppSettings) : InitResult :=
  match settings.getKey "textboxOutlineColors" >>= (fun c => c.getKey key) >>= ColorFromJson with
  | .ok v => .ok (set s v)
  | .error e => .error (e, s)

/-- The loops of `AppSettings::init` that read `settings[key]` into a vector of rectangles. -/
def loadRects (settings : Json) (key : String) : Except String (List Rect2f) := do
  let data ← settings.getKey key
  data.elements.mapM RectFromJson

/-- A conversion or lookup made while the settings are `s`: an exception it throws leaves
`AppSettings::init` with the settings as they are. -/
def atState {α : Type} (s : AppSettings) (x : Except String α) :
    Except (String × AppSettings) α :=
  match x with
  | .ok a => .ok a
  | .error e => .error (e, s)

/-- The first statement of `AppSettings::init`: the backend is selected from the value of
`settings["detectionBackend"]`. -/
def selectBackend (s₀ : AppSettings) (backend : Json) : InitResult :=
  if backend.isString "DB" then
    .ok { s₀ with detectionBackend := DetectionBackend.DB }
  else if backend.isString "EAST" then
    .ok { s₀ with detectionBackend := DetectionBackend.EAST }
  else
    .error ("Invalid Backend", s₀)

/-- The function `AppSettings::init(settings)` on the settings object `s₀`, statement by
statement. -/
def AppSettings.init (s₀ : AppSettings) (settings : Json) : InitResult := do
  let backend ← atState s₀ (settings.getKey "detectionBackend")
  let s ← selectBackend s₀ backend
  -- Load all of the focus and ignore regions from config
  let focus ← atState s (loadRects settings "focusMask")
  let ignore ← atState s (loadRects settings "ignoreMask")
  let s ← pure (if !focus.isEmpty then s.setFocusMask focus ignore else s)
  -- Load individual values from json
  let s ← loadBool settings "saveLuminanceMap" s (fun s b => { s with dbgSaveLuminanceMap := b })
  let s ← loadBool settings "saveTextboxOutline" s
    (fun s b => { s with dbgSaveTexboxOutline := b })
  let s ← loadBool settings "saveSeparateTexboxes" s
    (fun s b => { s with dbgSaveRawTextboxOutline := b })
  let s ← loadBool settings "saveHistograms" s
    (fun s b => { s with dbgSaveSeparateTextboxes := b })
  let s ← loadBool settings "saveRawTextboxOutline" s
    (fun s b => { s with dbgSaveHistograms := b })
  let s ← loadBool settings "saveLuminanceMasks" s
    (fun s b => { s with dbgSaveLuminanceMasks := b })
  let s ← loadBool settings "useTextRecognition" s
    (fun s b => { s with useTextRecognition := b })
  let s ← loadBool settings "printValuesOnResults" s
    (fun s b => { s with printResultValues := b })
  let s ← loadBool settings "saveLogs" s (fun s b => { s with dbgSaveLogs := b })
  let s ← loadBool settings "useDPI" s (fun s b => { s with useDPI := b })
  let s ← loadInt settings "targetDPI" s (fun s n => { s with targetDPI := n })
  let s ← loadInt settings "targetResolution" s (fun s n => { s with targetResolution := n })
  let s ← loadColor settings "pass" s (fun s v => { s with outlineColorPass := v })
  let s ← loadColor settings "warning" s (fun s v => { s with outlineColorWarning := v })
  let s ← loadColor settings "fail" s (fun s v => { s with outlineColorFail := v })
  let s ← loadColor settings "unrecognized" s
    (fun s v => { s with outlineColorUnrecognized := v })
  -- Load and set video processing configuration
  let framesToSkip ← atState s (settings.getKey "videoFramesToSkip" >>= Json.toInt)
  let videoFrameOutputInterval ←
    atState s (settings.getKey "videoImageOutputInterval" >>= Json.toInt)
  return { s with videoFramesToSkip := framesToSkip,
                  videoFrameOutputInterval := videoFrameOutputInterval }

/-- A settings value with the given focus and ignore regions; the fields that play no part in
the mask hold fixed sample values. -/
def sampleSettings (focus ignore : List Rect2f) : AppSettings :=
  { detectionBackend := DetectionBackend.DB
    focusMasks := focus
    ignoreMasks := ignore
    dbgSaveLuminanceMap := false
    dbgSaveTexboxOutline := false
    dbgSaveRawTextboxOutline := false
    dbgSaveSeparateTextboxes := false
    dbgSaveHistograms := false
    dbgSaveLuminanceMasks := false
    useTextRecognition := false
    printResultValues := false
    dbgSaveLogs := false
    useDPI := false
    targetDPI := 0
    targetResolution := 0
    outlineColorPass := ⟨0, 0, 0, 0⟩
    outlineColorWarning := ⟨0, 0, 0, 0⟩
    outlineColorFail := ⟨0, 0, 0, 0⟩
    outlineColorUnrecognized := ⟨0, 0, 0, 0⟩
    videoFramesToSkip := 0
    videoFrameOutputInterval := 0 }

/-- The JSON object `{"x": x, "y": y, "w": w, "h": h}` of a rectangle. -/
def rectJson (x y w h : ℚ) : Json :=
  Json.obj [("x", Json.num x), ("y", Json.num y), ("w", Json.num w), ("h", Json.num h)]

/-- A complete configuration document with the given `focusMask` and `ignoreMask` values and
the given values of the three diagnostic flags `saveHistograms`, `saveRawTextboxOutline`
and `saveSeparateTexboxes`. -/
def sampleConfig (focusMask ignoreMask : Json) (histograms rawOutline separate : Bool) : Json :=
  Json.obj
    [("detectionBackend", Json.str "DB"),
     ("focusMask", focusMask),
     ("ignoreMask", ignoreMask),
     ("saveLuminanceMap", Json.bool false),
     ("saveTextboxOutline", Json.bool false),
     ("saveSeparateTexboxes", Json.bool separate),
     ("saveHistograms", Json.bool histograms),
     ("saveRawTextboxOutline", Json.bool rawOutline),
     ("saveLuminanceMasks", Json.bool false),
     ("useTextRecognition", Json.bool false),
     ("printValuesOnResults", Json.bool false),
     ("saveLogs", Json.bool false),
     ("useDPI", Json.bool false),
     ("targetDPI", Json.num 100),
     ("targetResolution", Json.num 1080),
     ("textboxOutlineColors",
        Json.obj [("pass", Json.arr [Json.num 0, Json.num 255, Json.num 0]),
                  ("warning", Json.arr [Json.num 255, Json.num 255, Json.num 0]),
                  ("fail", Json.arr [Json.num 255, Json.num 0, Json.num 0]),
                  ("unrecognized", Json.arr [Json.num 0, Json.num 0, Json.num 255])]),
     ("videoFramesToSkip", Json.num 0),
     ("videoImageOutputInterval", Json.num 0)]

/-! ## Fonttik: luminance and contrast -/

section Luminance

variable {K : Type} [LinearOrderedField K]

/-- The function `Fonttik::linearize8bitRGB(colorBits)`. The argument `pow` is the C library
function `pow` the source calls. -/
def linearize8bitRGB (pow : K → K → K) (colorBits : uchar) : K :=
  let color : K := (colorBits.val : K) / 255.0
  if color ≤ 0.04045 then
    color / 12.92
  else
    let base : K := (color + 0.055) / 1.1055
    pow base 2.4

/-- The function `cv::LUT(src, lut, dst)` on an 8-bit three-channel `src`: every channel
value `v` is replaced by `lut[v]`; OpenCV requires a table of 256 entries. -/
def LUT (src : Mat Vec3b) (lut : List K) : Except String (Mat (Vec3 K)) :=
  if lut.length = 256 then
    .ok { rows := src.rows, cols := src.cols,
          px := fun r c =>
            ⟨lut.getD (src.px r c).c0.val 0, lut.getD (src.px r c).c1.val 0,
              lut.getD (src.px r c).c2.val 0⟩ }
  else
    .error "cv::Exception: the lookup table must have 256 entries"

/-- The function `Fonttik::calculateLuminance(imageMatrix)`. The static `linearizationLUT`
pointer is the argument of the same name: `none` is `nullptr`. An empty image gives an empty
map. -/
def calculateLuminance (pow : K → K → K) (linearizationLUT : Option (List K))
    (imageMatrix : Mat Vec3b) : Except String (Mat K) :=
  if !imageMatrix.empty then do
    let direct : Mat (Vec3 K) :=
      { rows := imageMatrix.rows, cols := imageMatrix.cols,
        px := fun r c =>
          ⟨linearize8bitRGB pow (imageMatrix.px r c).c0,
            linearize8bitRGB pow (imageMatrix.px r c).c1,
            linearize8bitRGB pow (imageMatrix.px r c).c2⟩ }
    let linearBGR ←
      match linearizationLUT with
      | some lut => if !lut.isEmpty then LUT imageMatrix lut else pure direct
      | none => pure direct
    pure { rows := imageMatrix.rows, cols := imageMatrix.cols,
           px := fun r c =>
             0.0722 * (linearBGR.px r c).c0 + 0.7152 * (linearBGR.px r c).c1 +
               0.2126 * (linearBGR.px r c).c2 }
  else
    pure { rows := 0, cols := 0, px := fun _ _ => 0 }

/-- Modelled from the spec: `Frame::LuminanceMeanWithMask` (its source file is not part of
`src/`) is "the arithmetic mean of luminance values where the respective mask is nonzero":
the sum of the selected values divided by their number. -/
def LuminanceMeanWithMask (luminanceMap : Mat K) (mask : Mat uchar) : K :=
  (∑ r in Finset.range luminanceMap.rows, ∑ c in Finset.range luminanceMap.cols,
      if mask.px r c ≠ 0 then luminanceMap.px r c else 0) /
    (∑ r in Finset.range luminanceMap.rows, ∑ c in Finset.range luminanceMap.cols,
      if mask.px r c ≠ 0 then (1 : K) else 0)

/-- The function `Fonttik::ContrastBetweenRegions(luminanceMap, maskA, maskB)`. The helper
`Frame::LuminanceMeanWithMask`, defined outside `src/`, is the argument `mean`. -/
def ContrastBetweenRegions (mean : Mat K → Mat uchar → K) (luminanceMap : Mat K)
    (maskA maskB : Mat uchar) : K :=
  let meanLight := mean luminanceMap maskA
  let meanDark := mean luminanceMap maskB
  (max meanLight meanDark + 0.05) / (min meanLight meanDark + 0.05)

/-- The sRGB linearization in the words of the specification (divisor `1.055`): `c' = c/255`;
if `c' ≤ 0.04045` the value is `c'/12.92`, else `((c'+0.055)/1.055)^2.4`. -/
def srgbLinearizeSpec (pow : K → K → K) (c : uchar) : K :=
  if (c.val : K) / 255 ≤ 0.04045 then
    (c.val : K) / 255 / 12.92
  else
    pow (((c.val : K) / 255 + 0.055) / 1.055) 2.4

end Luminance

/-- A one-row image: the pixel in column `c` is the `c`-th entry of `row` (black beyond). -/
def rowImage (row : List Vec3b) : Mat Vec3b :=
  { rows := 1, cols := row.length, px := fun _ c => row.getD c ⟨0, 0, 0⟩ }

/-- A one-row single-channel map: the value in column `c` is the `c`-th entry of `row`. -/
def rowMap {K : Type} [Zero K] (row : List K) : Mat K :=
  { rows := 1, cols := row.length, px := fun _ c => row.getD c 0 }

/-- A one-row single-channel mask: the value in column `c` is the `c`-th entry of `row`. -/
def rowMask (row : List uchar) : Mat uchar :=
  { rows := 1, cols := row.length, px := fun _ c => row.getD c 0 }

/-! ## TextDetectionParams -/

/-- The class `EASTDetectionParams`. -/
structure EASTDetectionParams where
  detectionModel : String
  nmsThreshold : ℚ
  detScale : ℚ
  detMean : ℚ × ℚ × ℚ
deriving DecidableEq, Repr

/-- The constructor `EASTDetectionParams()`. -/
def EASTDetectionParams.new : EASTDetectionParams :=
  { detectionModel := "frozen_east_text_detection.pb", nmsThreshold := 0.4,
    detScale := 1.0, detMean := (123.68, 116.78, 103.94) }

/-- The class `DBDetectionParams`. -/
structure DBDetectionParams where
  detectionModel : String
  binThresh : ℚ
  polyThresh : ℚ
  maxCandidates : Nat
  unclipRatio : ℚ
  scale : ℚ
  mean : ℚ × ℚ × ℚ
  inputSize : Int × Int
deriving DecidableEq, Repr

/-- The constructor `DBDetectionParams()` with the default member initializers. -/
def DBDetectionParams.new : DBDetectionParams :=
  { detectionModel := "DB_IC15_resnet50.onnx", binThresh := 0.3, polyThresh := 0.5,
    maxCandidates := 200, unclipRatio := 2.0, scale := 1.0 / 255,
    mean := (123.68, 116.78, 103.94), inputSize := (736, 736) }

/-- The enumeration `PreferredBackend` (`DEFAULT = 0, CUDA = 5`). -/
inductive PreferredBackend where
  | DEFAULT
  | CUDA
deriving DecidableEq, Repr

/-- The enumeration `PreferredTarget` (`CPU = 0, OPENCL = 1, CUDA = 6`). -/
inductive PreferredTarget where
  | CPU
  | OPENCL
  | CUDA
deriving DecidableEq, Repr

/-- The class `TextDetectionParams`. -/
structure TextDetectionParams where
  activeBackground : String
  confThreshold : ℚ
  mergeThreshold : ℚ × ℚ
  rotationThresholdRadians : ℚ
  eastCfg : EASTDetectionParams
  dbCfg : DBDetectionParams
  preferredBackend : PreferredBackend
  preferredTarget : PreferredTarget
deriving DecidableEq, Repr

/-- The constructor `TextDetectionParams()`. -/
def TextDetectionParams.new : TextDetectionParams :=
  { activeBackground := "", confThreshold := 0.5, mergeThreshold := (1.0, 1.0),
    rotationThresholdRadians := 0.17, eastCfg := EASTDetectionParams.new,
    dbCfg := DBDetectionParams.new, preferredBackend := PreferredBackend.DEFAULT,
    preferredTarget := PreferredTarget.CPU }

/-- The method `TextDetectionParams::getMergeThreshold()`. -/
def TextDetectionParams.getMergeThreshold (p : TextDetectionParams) : ℚ × ℚ :=
  p.mergeThreshold

/-- The method `TextDetectionParams::setMergeThreshold(threshold)`. -/
def TextDetectionParams.setMergeThreshold (p : TextDetectionParams) (threshold : ℚ × ℚ) :
    TextDetectionParams :=
  { p with mergeThreshold := threshold }

/-! ## Fonttik: the frame and media pipeline -/

/-- The calls a frame makes to collaborators defined outside `src/`, in the order made. -/
inductive Call where
  | detectBoxes
  | mergeTextBoxes
  | sizeCheck
  | contrastCheck
deriving DecidableEq, Repr

/-- Modelled from the spec: the class `Frame` is declared outside `src/`; of a frame only the
image matrix `getImageMatrix()` returns is kept. -/
structure Frame where
  image : Mat Vec3b

/-- Modelled from the spec: the class `Results` is declared outside `src/`; it "aggregates
FrameResults across all frames of a media item", here the results added by
`addSizeResults` and `addContrastResults`, oldest first. -/
structure Results (FR : Type) where
  sizeResults : List FR
  contrastResults : List FR

/-- The method `Results::addSizeResults`. -/
def Results.addSizeResults {FR : Type} (res : Results FR) (r : FR) : Results FR :=
  { res with sizeResults := res.sizeResults ++ [r] }

/-- The method `Results::addContrastResults`. -/
def Results.addContrastResults {FR : Type} (res : Results FR) (r : FR) : Results FR :=
  { res with contrastResults := res.contrastResults ++ [r] }

/-- The state of a `Fonttik` object: its configuration and its collaborators. `Textbox` and
`FR` (the struct `FrameResults`) are declared outside `src/` and stay abstract;
`frameResults n` is the constructor call `FrameResults(n)`. The detector may throw. -/
structure Fonttik (Textbox FR : Type) where
  appSettings : AppSettings
  textDetectionParams : TextDetectionParams
  detectBoxes : Mat Vec3b → Except String (List Textbox)
  mergeBoxes : List Textbox → TextDetectionParams → List Textbox
  sizeCheck : Frame → List Textbox → FR
  contrastCheck : Frame → List Textbox → FR
  frameResults : Int → FR

section Pipeline

variable {Textbox FR : Type}

/-- Per-element bitwise and of two three-channel matrices (`img & mask`). -/
def Mat.bitwiseAnd (a b : Mat Vec3b) : Mat Vec3b :=
  { rows := a.rows, cols := a.cols,
    px := fun r c =>
      ⟨(a.px r c).c0 &&& (b.px r c).c0, (a.px r c).c1 &&& (b.px r c).c1,
        (a.px r c).c2 &&& (b.px r c).c2⟩ }

/-- The function `Fonttik::applyFocusMask(frame)`. -/
def Fonttik.applyFocusMask (f : Fonttik Textbox FR) (frame : Frame) : Except String Frame := do
  let img := frame.image
  let mask ← f.appSettings.calculateMask img.cols img.rows
  return { image := img.bitwiseAnd mask }

/-- The function `Fonttik::getTextBoxes(image)`. -/
def Fonttik.getTextBoxes (f : Fonttik Textbox FR) (image : Frame) :
    Except String (List Textbox × List Call) := do
  let boxes ← f.detectBoxes image.image
  return (boxes, [Call.detectBoxes])

/-- The function `Fonttik::mergeTextBoxes(textBoxes)`: the new contents of `textBoxes` and
the calls made. -/
def Fonttik.mergeTextBoxes (f : Fonttik Textbox FR) (textBoxes : List Textbox) :
    List Textbox × List Call :=
  let threshold := f.textDetectionParams.getMergeThreshold
  if threshold.1 < 1.0 ∨ threshold.2 < 1.0 then
    (f.mergeBoxes textBoxes f.textDetectionParams, [Call.mergeTextBoxes])
  else
    (textBoxes, [])

/-- The function `Fonttik::fontSizeCheck(frame, boxes)`. -/
def Fonttik.fontSizeCheck (f : Fonttik Textbox FR) (frame : Frame) (boxes : List Textbox) :
    FR × List Call :=
  (f.sizeCheck frame boxes, [Call.sizeCheck])

/-- The function `Fonttik::textContrastCheck(frame, boxes)`. -/
def Fonttik.textContrastCheck (f : Fonttik Textbox FR) (frame : Frame)
    (boxes : List Textbox) : FR × List Call :=
  (f.contrastCheck frame boxes, [Call.contrastCheck])

/-- The function `Fonttik::processFrame(frame)`: the pair of results and the calls made. There is no
`try`/`catch`: an exception of a step leaves the function. -/
def Fonttik.processFrame (f : Fonttik Textbox FR) (frame : Frame) :
    Except String ((FR × FR) × List Call) := do
  let frame ← f.applyFocusMask frame
  let (textBoxes, calls₁) ← f.getTextBoxes frame
  let (textBoxes, calls₂) := f.mergeTextBoxes textBoxes
  let sizeRes := f.frameResults (-1)
  let contrastRes := f.frameResults (-1)
  if textBoxes.isEmpty then
    return ((sizeRes, contrastRes), calls₁ ++ calls₂)
  else
    let (sizeRes, calls₃) := f.fontSizeCheck frame textBoxes
    let (contrastRes, calls₄) := f.textContrastCheck frame textBoxes
    return ((sizeRes, contrastRes), calls₁ ++ calls₂ ++ calls₃ ++ calls₄)

/-- The function `Fonttik::processMedia(media)`: the loop over the frames the media yields
(in order), adding the results of each frame to `mediaRes`. There is no `try`/`catch`: an exception
of `processFrame` leaves the loop and the function. -/
def Fonttik.processMedia (f : Fonttik Textbox FR) :
    List Frame → Results FR → Except String (Results FR)
  | [], mediaRes => .ok mediaRes
  | nextFrame :: rest, mediaRes => do
    let (res, _) ← f.processFrame nextFrame
    let mediaRes := (mediaRes.addSizeResults res.1).addContrastResults res.2
    f.processMedia rest mediaRes

end Pipeline

/-- A `Fonttik` object over the whole frame as focus region, with text boxes and frame
results both plain integers: the given detector and merge thresholds, a merger that drops
the last box, and checkers that return the number of boxes. -/
def sampleFonttik (detect : Mat Vec3b → Except String (List Nat)) (threshold : ℚ × ℚ) :
    Fonttik Nat Int :=
  { appSettings := sampleSettings [⟨0, 0, 1, 1⟩] []
    textDetectionParams := TextDetectionParams.new.setMergeThreshold threshold
    detectBoxes := detect
    mergeBoxes := fun boxes _ => boxes.dropLast
    sizeCheck := fun _ boxes => boxes.length
    contrastCheck := fun _ boxes => boxes.length
    frameResults := fun n => n }

/-- A detector that finds no text in a frame whose top-left pixel is black and fails on every
other frame. -/
def blackOnlyDetector (image : Mat Vec3b) : Except String (List Nat) :=
  if image.px 0 0 = ⟨0, 0, 0⟩ then .ok [] else .error "detector failure"

/-- A frame of a single white pixel. -/
def whiteFrame : Frame :=
  { image := rowImage [⟨255, 255, 255⟩] }

/-- A frame of a single black pixel. -/
def blackFrame : Frame :=
  { image := rowImage [⟨0, 0, 0⟩] }

/-! ## TextDetectionParams: initialisation from a configuration document -/

/-- The OpenCV constant `CV_PI`, `3.1415926535897932384626433832795`. -/
def CV_PI : ℚ := 3.1415926535897932384626433832795

/-- Conversion to `std::string`: only a string converts. -/
def Json.toStr : Json → Except String String
  | Json.str s => .ok s
  | _ => .error "type_error: type must be string"

/-- Conversion to `uint`: the `int` value modulo `2^32`. -/
def Json.toUInt (data : Json) : Except String Nat := do
  let n ← data.toInt
  return (n % 2 ^ 32).toNat

/-- The expression `data[i]` on a non-const value, whatever `i`: `null` behaves as an empty
array, an index past the end reads as `null`, and a value that is neither `null` nor an
array raises `type_error`. -/
def Json.index (data : Json) (i : Nat) : Except String Json :=
  match data with
  | Json.null => .ok Json.null
  | Json.arr items => .ok (items.getD i Json.null)
  | _ => .error "type_error: cannot use operator[] with a numeric argument"

/-- A conversion or lookup made while the object being initialised is `s`: an exception it
throws leaves the initialisation with the object as it is. -/
def failingAt {σ α : Type} (s : σ) (x : Except String α) : Except (String × σ) α :=
  match x with
  | .ok a => .ok a
  | .error e => .error (e, s)

/-- The method `TextDetectionParams::getBackendParam(param)`. -/
def getBackendParam (param : String) : PreferredBackend :=
  if param = "CUDA" then PreferredBackend.CUDA else PreferredBackend.DEFAULT

/-- The method `TextDetectionParams::getTargetParam(param)`. -/
def getTargetParam (param : String) : PreferredTarget :=
  if param = "CUDA" then PreferredTarget.CUDA
  else if param = "OPENCL" then PreferredTarget.OPENCL
  else PreferredTarget.CPU

/-- The method `TextDetectionParams::getRotationThresholdRadians()`. -/
def TextDetectionParams.getRotationThresholdRadians (p : TextDetectionParams) : ℚ :=
  p.rotationThresholdRadians

/-- The three numbers `{ mean[0], mean[1], mean[2] }` read from a JSON value. -/
def readMean (mean : Json) : Except String (ℚ × ℚ × ℚ) := do
  let m0 ← (← mean.index 0).toFloat
  let m1 ← (← mean.index 1).toFloat
  let m2 ← (← mean.index 2).toFloat
  return (m0, m1, m2)

/-- The method `EASTDetectionParams::init(eastConfig)` on the object `e₀`, statement by
statement; an error carries the object as it is when the exception is thrown. -/
def EASTDetectionParams.init (e₀ : EASTDetectionParams) (eastConfig : Json) :
    Except (String × EASTDetectionParams) EASTDetectionParams := do
  let model ← failingAt e₀ (eastConfig.getKey "detectionModel" >>= Json.toStr)
  let e := { e₀ with detectionModel := model }
  let nms ← failingAt e (eastConfig.getKey "nmsThreshold" >>= Json.toFloat)
  let e := { e with nmsThreshold := nms }
  let scale ← failingAt e (eastConfig.getKey "detectionScale" >>= Json.toFloat)
  let e := { e with detScale := scale }
  let mean ← failingAt e (eastConfig.getKey "detectionMean")
  let m ← failingAt e (readMean mean)
  return { e with detMean := m }

/-- The method `DBDetectionParams::init(dbConfig)` on the object `d₀`, statement by
statement; an error carries the object as it is when the exception is thrown. -/
def DBDetectionParams.init (d₀ : DBDetectionParams) (dbConfig : Json) :
    Except (String × DBDetectionParams) DBDetectionParams := do
  let model ← failingAt d₀ (dbConfig.getKey "detectionModel" >>= Json.toStr)
  let d := { d₀ with detectionModel := model }
  let bin ← failingAt d (dbConfig.getKey "binaryThreshold" >>= Json.toFloat)
  let d := { d with binThresh := bin }
  let poly ← failingAt d (dbConfig.getKey "polygonThreshold" >>= Json.toFloat)
  let d := { d with polyThresh := poly }
  let candidates ← failingAt d (dbConfig.getKey "maxCandidates" >>= Json.toUInt)
  let d := { d with maxCandidates := candidates }
  let unclip ← failingAt d (dbConfig.getKey "unclipRatio" >>= Json.toFloat)
  let d := { d with unclipRatio := unclip }
  let scale ← failingAt d (dbConfig.getKey "scale" >>= Json.toFloat)
  let d := { d with scale := scale }
  let m ← failingAt d (dbConfig.getKey "detectionMean")
  let mean ← failingAt d (readMean m)
  let d := { d with mean := mean }
  let sz ← failingAt d (dbConfig.getKey "inputSize")
  let w ← failingAt d (sz.index 0 >>= Json.toInt)
  let h ← failingAt d (sz.index 1 >>= Json.toInt)
  return { d with inputSize := (w, h) }

/-- The exception of a nested `init` seen from the enclosing object: the enclosing object
holds the nested object as it is when the exception is thrown. -/
def nestedAt {σ τ : Type} (wrap : τ → σ) (x : Except (String × τ) τ) : Except (String × σ) σ :=
  match x with
  | .ok t => .ok (wrap t)
  | .error (e, t) => .error (e, wrap t)

/-- The method `TextDetectionParams::init(textDetection)` on the object `p₀`, statement by
statement; an error carries the object as it is when the exception is thrown. -/
def TextDetectionParams.init (p₀ : TextDetectionParams) (textDetection : Json) :
    Except (String × TextDetectionParams) TextDetectionParams := do
  let merge ← failingAt p₀ (textDetection.getKey "mergeThreshold")
  let degreeThreshold ←
    failingAt p₀ (textDetection.getKey "rotationThresholdDegrees" >>= Json.toFloat)
  let conf ← failingAt p₀ (textDetection.getKey "confidence" >>= Json.toFloat)
  let p := { p₀ with confThreshold := conf }
  let x ← failingAt p (merge.getKey "x" >>= Json.toFloat)
  let y ← failingAt p (merge.getKey "y" >>= Json.toFloat)
  let p := { p with mergeThreshold := (x, y) }
  let p := { p with rotationThresholdRadians := degreeThreshold * (CV_PI / 180) }
  let backend ← failingAt p (textDetection.getKey "preferredBackend" >>= Json.toStr)
  let p := { p with preferredBackend := getBackendParam backend }
  let target ← failingAt p (textDetection.getKey "preferredTarget" >>= Json.toStr)
  let p := { p with preferredTarget := getTargetParam target }
  let east ← failingAt p (textDetection.getKey "EAST")
  let p ← nestedAt (fun e => { p with eastCfg := e }) (p.eastCfg.init east)
  let db ← failingAt p (textDetection.getKey "DB")
  nestedAt (fun d => { p with dbCfg := d }) (p.dbCfg.init db)

/-- A complete text-detection configuration with the given `rotationThresholdDegrees` and
`confidence` values. -/
def sampleDetectionConfig (degrees confidence : Json) : Json :=
  Json.obj
    [("confidence", confidence),
     ("mergeThreshold", Json.obj [("x", Json.num 1), ("y", Json.num 1)]),
     ("rotationThresholdDegrees", degrees),
     ("preferredBackend", Json.str "CUDA"),
     ("preferredTarget", Json.str "OPENCL"),
     ("EAST",
        Json.obj [("detectionModel", Json.str "east.pb"), ("nmsThreshold", Json.num 0.4),
                  ("detectionScale", Json.num 1),
                  ("detectionMean", Json.arr [Json.num 123, Json.num 116, Json.num 103])]),
     ("DB",
        Json.obj [("detectionModel", Json.str "db.onnx"), ("binaryThreshold", Json.num 0.3),
                  ("polygonThreshold", Json.num 0.5), ("maxCandidates", Json.num 200),
                  ("unclipRatio", Json.num 2), ("scale", Json.num 1),
                  ("detectionMean", Json.arr [Json.num 123, Json.num 116, Json.num 103]),
                  ("inputSize", Json.arr [Json.num 736, Json.num 736])])]

/-- The 256-entry lookup table whose `i`-th entry is the direct linearization of `i`. -/
def directLUT {K : Type} [LinearOrderedField K] (pow : K → K → K) : List K :=
  List.ofFn (fun i : uchar => linearize8bitRGB pow i)

/-! ## Region masks: lemmas -/

theorem setToRoi_ok {α : Type} (mat : Mat α) (roi : Rect) (v : α)
    (h : roi.insideDims mat.rows mat.cols = true) :
    mat.setToRoi roi v =
      .ok { mat with px := fun r c => if roi.containsPx r c then v else mat.px r c } := by
  simp [Mat.setToRoi, h]

theorem setRegions_ok (width height : Nat) (v : Vec3b) (rects : List Rect2f) :
    ∀ (mat : Mat Vec3b),
      (∀ rect ∈ rects, (absRect rect width height).insideDims mat.rows mat.cols = true) →
      setRegions width height v mat rects =
        .ok { mat with
              px := fun r c =>
                if rects.any (fun rect => (absRect rect width height).containsPx r c) then v
                else mat.px r c } := by
  induction rects with
  | nil => intro mat _; rfl
  | cons rect rest ih =>
    intro mat h
    have h1 := h rect (List.mem_cons_self _ _)
    have h2 : ∀ q ∈ rest, (absRect q width height).insideDims mat.rows mat.cols = true :=
      fun q hq => h q (List.mem_cons_of_mem _ hq)
    have step := ih { mat with
      px := fun r c => if (absRect rect width height).containsPx r c then v else mat.px r c } h2
    unfold setRegions at step ⊢
    rw [List.foldlM_cons, setToRoi_ok mat _ v h1]
    show List.foldlM _ _ rest = _
    rw [step]
    congr 1
    simp only [Mat.mk.injEq, true_and]
    funext r c
    by_cases hc : (absRect rect width height).containsPx r c = true
    · simp [hc]
    · simp [hc]

theorem setRegions_error (width height : Nat) (v : Vec3b) (rects : List Rect2f) :
    ∀ (mat : Mat Vec3b),
      (∃ rect ∈ rects, (absRect rect width height).insideDims mat.rows mat.cols = false) →
      ∃ e, setRegions width height v mat rects = .error e := by
  induction rects with
  | nil => intro mat h; simp at h
  | cons rect rest ih =>
    intro mat h
    unfold setRegions at ih ⊢
    rw [List.foldlM_cons]
    by_cases h1 : (absRect rect width height).insideDims mat.rows mat.cols = true
    · rw [setToRoi_ok mat _ v h1]
      obtain ⟨q, hq, hbad⟩ := h
      rcases List.mem_cons.mp hq with rfl | hq
      · rw [h1] at hbad; exact absurd hbad (by simp)
      · exact ih _ ⟨q, hq, hbad⟩
    · refine ⟨"cv::Exception: roi outside of the matrix", ?_⟩
      simp [Mat.setToRoi, h1]
      rfl

/-- The mask `calculateMask` returns when no region of interest is rejected, in closed form. -/
theorem calculateMask_ok (s : AppSettings) (width height : Nat)
    (hfocus : ∀ rect ∈ s.focusMasks, (absRect rect width height).insideDims height width = true)
    (hignore : ∀ rect ∈ s.ignoreMasks,
      (absRect rect width height).insideDims height width = true) :
    s.calculateMask width height =
      .ok { rows := height, cols := width,
            px := fun r c =>
              if s.ignoreMasks.any (fun rect => (absRect rect width height).containsPx r c)
              then ignorePx
              else if s.focusMasks.any (fun rect => (absRect rect width height).containsPx r c)
              then keepPx else ignorePx } := by
  unfold AppSettings.calculateMask
  have e1 := setRegions_ok width height keepPx s.focusMasks (Mat.filled height width ignorePx)
    hfocus
  simp only [e1]
  have e2 := setRegions_ok width height ignorePx s.ignoreMasks
    { Mat.filled height width ignorePx with
      px := fun r c =>
        if s.focusMasks.any (fun rect => (absRect rect width height).containsPx r c) then keepPx
        else (Mat.filled height width ignorePx).px r c } hignore
  show (setRegions width height ignorePx _ s.ignoreMasks >>= fun m => pure m) = _
  rw [e2]
  rfl

theorem any_containsPx_perm (width height r c : Nat) {l₁ l₂ : List Rect2f} (p : l₁.Perm l₂) :
    l₁.any (fun rect => (absRect rect width height).containsPx r c) =
      l₂.any (fun rect => (absRect rect width height).containsPx r c) := by
  rw [Bool.eq_iff_iff]
  simp only [List.any_eq_true]
  constructor
  · rintro ⟨q, hq, h⟩; exact ⟨q, p.mem_iff.mp hq, h⟩
  · rintro ⟨q, hq, h⟩; exact ⟨q, p.mem_iff.mpr hq, h⟩

/-! ## Region masks: the mask of `calculateMask` -/

/-- C1: when the pixel rectangle of every focus and ignore rectangle lies inside the image,
`calculateMask` returns a `height x width` mask in which a pixel is keep (255, 255, 255)
exactly when it lies in the pixel rectangle of some focus rectangle and of no ignore
rectangle, and is ignore (0, 0, 0) otherwise; listing the rectangles in another order gives
the same mask. -/
theorem calculateMask_keep_iff (s : AppSettings) (width height : Nat)
    (hfocus : ∀ rect ∈ s.focusMasks, (absRect rect width height).insideDims height width = true)
    (hignore : ∀ rect ∈ s.ignoreMasks,
      (absRect rect width height).insideDims height width = true) :
    ∃ mask : Mat Vec3b,
      s.calculateMask width height = .ok mask ∧ mask.rows = height ∧ mask.cols = width ∧
      (∀ r c : Nat, r < height → c < width →
        (mask.px r c = keepPx ↔
          ((∃ f ∈ s.focusMasks, (absRect f width height).containsPx r c = true) ∧
            ∀ g ∈ s.ignoreMasks, (absRect g width height).containsPx r c = false)) ∧
        (¬ ((∃ f ∈ s.focusMasks, (absRect f width height).containsPx r c = true) ∧
            ∀ g ∈ s.ignoreMasks, (absRect g width height).containsPx r c = false) →
          mask.px r c = ignorePx)) ∧
      (∀ s' : AppSettings, s'.focusMasks.Perm s.focusMasks →
        s'.ignoreMasks.Perm s.ignoreMasks → s'.calculateMask width height = .ok mask) := by
  refine ⟨_, calculateMask_ok s width height hfocus hignore, rfl, rfl, ?_, ?_⟩
  · intro r c _ _
    have hne : keepPx ≠ ignorePx := by decide
    by_cases hi : s.ignoreMasks.any (fun rect => (absRect rect width height).containsPx r c) = true
    · have hi2 := hi
      rw [List.any_eq_true] at hi2
      obtain ⟨g, hg, hgc⟩ := hi2
      have hcond : ¬ ((∃ f ∈ s.focusMasks, (absRect f width height).containsPx r c = true) ∧
            ∀ g ∈ s.ignoreMasks, (absRect g width height).containsPx r c = false) := by
        rintro ⟨_, hall⟩
        rw [hall g hg] at hgc
        exact absurd hgc (by simp)
      simp only [hi, if_true]
      exact ⟨⟨fun h => absurd h.symm hne, fun h => absurd h hcond⟩, fun _ => trivial⟩
    · have hall : ∀ g ∈ s.ignoreMasks, (absRect g width height).containsPx r c = false := by
        intro g hg
        by_contra hgc
        exact hi (List.any_eq_true.mpr ⟨g, hg, by simpa using hgc⟩)
      simp only [hi, if_false]
      by_cases hf : s.focusMasks.any (fun rect => (absRect rect width height).containsPx r c) = true
      · have hf2 := List.any_eq_true.mp hf
        simp only [hf, if_true]
        exact ⟨⟨fun _ => ⟨hf2, hall⟩, fun _ => rfl⟩, fun h => absurd ⟨hf2, hall⟩ h⟩
      · simp only [hf, if_false]
        refine ⟨⟨fun h => absurd h.symm hne, ?_⟩, fun _ => rfl⟩
        rintro ⟨hex, _⟩
        exact absurd (List.any_eq_true.mpr hex) hf
  · intro s' pf pi
    have hf' : ∀ rect ∈ s'.focusMasks,
        (absRect rect width height).insideDims height width = true :=
      fun q hq => hfocus q (pf.mem_iff.mp hq)
    have hi' : ∀ rect ∈ s'.ignoreMasks,
        (absRect rect width height).insideDims height width = true :=
      fun q hq => hignore q (pi.mem_iff.mp hq)
    rw [calculateMask_ok s' width height hf' hi']
    congr 1
    simp only [Mat.mk.injEq, true_and]
    funext r c
    rw [any_containsPx_perm width height r c pf, any_containsPx_perm width height r c pi]

/-- Witness of `calculateMask_keep_iff`: a 4 x 4 image, the whole frame as focus and the
top-left quarter as ignore region. -/
theorem calculateMask_keep_iff_witness :
    ∃ mask : Mat Vec3b,
      (sampleSettings [⟨0, 0, 1, 1⟩] [⟨0, 0, 1/2, 1/2⟩]).calculateMask 4 4 = .ok mask ∧
      mask.rows = 4 ∧ mask.cols = 4 ∧
      (∀ r c : Nat, r < 4 → c < 4 →
        (mask.px r c = keepPx ↔
          ((∃ f ∈ (sampleSettings [⟨0, 0, 1, 1⟩] [⟨0, 0, 1/2, 1/2⟩]).focusMasks,
              (absRect f 4 4).containsPx r c = true) ∧
            ∀ g ∈ (sampleSettings [⟨0, 0, 1, 1⟩] [⟨0, 0, 1/2, 1/2⟩]).ignoreMasks,
              (absRect g 4 4).containsPx r c = false)) ∧
        (¬ ((∃ f ∈ (sampleSettings [⟨0, 0, 1, 1⟩] [⟨0, 0, 1/2, 1/2⟩]).focusMasks,
              (absRect f 4 4).containsPx r c = true) ∧
            ∀ g ∈ (sampleSettings [⟨0, 0, 1, 1⟩] [⟨0, 0, 1/2, 1/2⟩]).ignoreMasks,
              (absRect g 4 4).containsPx r c = false) →
          mask.px r c = ignorePx)) ∧
      (∀ s' : AppSettings,
        s'.focusMasks.Perm (sampleSettings [⟨0, 0, 1, 1⟩] [⟨0, 0, 1/2, 1/2⟩]).focusMasks →
        s'.ignoreMasks.Perm (sampleSettings [⟨0, 0, 1, 1⟩] [⟨0, 0, 1/2, 1/2⟩]).ignoreMasks →
        s'.calculateMask 4 4 = .ok mask) :=
  calculateMask_keep_iff (sampleSettings [⟨0, 0, 1, 1⟩] [⟨0, 0, 1/2, 1/2⟩]) 4 4
    (by norm_num [sampleSettings, absRect, truncToInt, Rect.insideDims])
    (by norm_num [sampleSettings, absRect, truncToInt, Rect.insideDims])

/-- C10 (as stated, refuted): on a 2 x 2 image the focus rectangle `(0.5, 0, 1, 1)`, which
lies partially outside the image, is not clipped: its pixel rectangle `(1, 0, 2, 2)` is
rejected and `calculateMask` fails. -/
theorem calculateMask_outside_fails :
    (sampleSettings [⟨1/2, 0, 1, 1⟩] []).calculateMask 2 2 =
      .error "cv::Exception: roi outside of the matrix" := by
  have h : (absRect ⟨1/2, 0, 1, 1⟩ 2 2).insideDims 2 2 = false := by
    norm_num [absRect, truncToInt, Rect.insideDims]
  simp only [AppSettings.calculateMask, sampleSettings, setRegions, Mat.setToRoi, Mat.filled,
    List.foldlM_cons, h]
  rfl

/-- C10 (amended): `calculateMask` returns a mask exactly when the pixel rectangle of every
focus and ignore rectangle lies inside the image; a rectangle whose pixel rectangle reaches
outside the image is not clipped but makes the call fail. -/
theorem calculateMask_ok_iff_inside (s : AppSettings) (width height : Nat) :
    (∃ mask, s.calculateMask width height = .ok mask) ↔
      ∀ rect ∈ s.focusMasks ++ s.ignoreMasks,
        (absRect rect width height).insideDims height width = true := by
  constructor
  · rintro ⟨mask, hm⟩
    by_contra hne
    push_neg at hne
    obtain ⟨q, hq, hbad⟩ := hne
    have hbad' : (absRect q width height).insideDims height width = false := by
      simpa using hbad
    have hfail : ∃ e, s.calculateMask width height = .error e := by
      unfold AppSettings.calculateMask
      by_cases hf : ∀ rect ∈ s.focusMasks,
          (absRect rect width height).insideDims height width = true
      · have e1 := setRegions_ok width height keepPx s.focusMasks
          (Mat.filled height width ignorePx) hf
        have hqi : q ∈ s.ignoreMasks := by
          rcases List.mem_append.mp hq with h | h
          · rw [hf q h] at hbad'; exact absurd hbad' (by simp)
          · exact h
        obtain ⟨e, he⟩ := setRegions_error width height ignorePx s.ignoreMasks
          { Mat.filled height width ignorePx with
            px := fun r c =>
              if s.focusMasks.any (fun rect => (absRect rect width height).containsPx r c)
              then keepPx else (Mat.filled height width ignorePx).px r c } ⟨q, hqi, hbad'⟩
        refine ⟨e, ?_⟩
        simp only [e1]
        show (setRegions width height ignorePx _ s.ignoreMasks >>= fun m => pure m) = _
        rw [he]
        rfl
      · push_neg at hf
        obtain ⟨p, hp, hpb⟩ := hf
        obtain ⟨e, he⟩ := setRegions_error width height keepPx s.focusMasks
          (Mat.filled height width ignorePx) ⟨p, hp, by simpa using hpb⟩
        refine ⟨e, ?_⟩
        simp only [he]
        rfl
    obtain ⟨e, he⟩ := hfail
    rw [he] at hm
    cases hm
  · intro h
    exact ⟨_, calculateMask_ok s width height
      (fun q hq => h q (List.mem_append.mpr (Or.inl hq)))
      (fun q hq => h q (List.mem_append.mpr (Or.inr hq)))⟩

/-! ## Luminance: lemmas -/

theorem linearize8bitRGB_white_lt_one : linearize8bitRGB Real.rpow (255 : uchar) < 1 := by
  have hv : ((255 : uchar).val : ℕ) = 255 := rfl
  unfold linearize8bitRGB
  simp only [hv]
  rw [if_neg (by norm_num)]
  exact Real.rpow_lt_one (by norm_num) (by norm_num) (by norm_num)

theorem linearize8bitRGB_black : linearize8bitRGB Real.rpow (0 : uchar) = 0 := by
  unfold linearize8bitRGB
  norm_num

theorem linearize8bitRGB_linear_branch (pow : ℝ → ℝ → ℝ) (c : uchar) (h : c.val ≤ 10) :
    linearize8bitRGB pow c = srgbLinearizeSpec pow c := by
  have hc : ((c.val : ℕ) : ℝ) ≤ 10 := by exact_mod_cast h
  have hle : ((c.val : ℕ) : ℝ) / 255.0 ≤ 0.04045 := by norm_num; linarith
  have hle2 : ((c.val : ℕ) : ℝ) / 255 ≤ 0.04045 := by norm_num; linarith
  unfold linearize8bitRGB srgbLinearizeSpec
  simp only [if_pos hle, if_pos hle2]
  norm_num

theorem luminanceMean_const {K : Type} [LinearOrderedField K] (L : Mat K) (mask : Mat uchar)
    (v : K)
    (hv : ∀ r c, r < L.rows → c < L.cols → mask.px r c ≠ 0 → L.px r c = v)
    (hne : ∃ r c, r < L.rows ∧ c < L.cols ∧ mask.px r c ≠ 0) :
    LuminanceMeanWithMask L mask = v := by
  unfold LuminanceMeanWithMask
  have hsum : (∑ r in Finset.range L.rows, ∑ c in Finset.range L.cols,
      if mask.px r c ≠ 0 then L.px r c else 0) =
      v * (∑ r in Finset.range L.rows, ∑ c in Finset.range L.cols,
        if mask.px r c ≠ 0 then (1 : K) else 0) := by
    rw [Finset.mul_sum]
    refine Finset.sum_congr rfl (fun r hr => ?_)
    rw [Finset.mul_sum]
    refine Finset.sum_congr rfl (fun c hc => ?_)
    by_cases hm : mask.px r c ≠ 0
    · rw [if_pos hm, if_pos hm, mul_one]
      exact hv r c (Finset.mem_range.mp hr) (Finset.mem_range.mp hc) hm
    · rw [if_neg hm, if_neg hm, mul_zero]
  have hpos : (0 : K) < ∑ r in Finset.range L.rows, ∑ c in Finset.range L.cols,
      if mask.px r c ≠ 0 then (1 : K) else 0 := by
    obtain ⟨r0, c0, hr0, hc0, hm0⟩ := hne
    have hinner : ∀ r ∈ Finset.range L.rows,
        (0 : K) ≤ ∑ c in Finset.range L.cols, if mask.px r c ≠ 0 then (1 : K) else 0 :=
      fun r _ => Finset.sum_nonneg (fun c _ => by split_ifs <;> norm_num)
    have h1 : (1 : K) ≤ ∑ c in Finset.range L.cols, if mask.px r0 c ≠ 0 then (1 : K) else 0 := by
      have := Finset.single_le_sum (f := fun c => if mask.px r0 c ≠ 0 then (1 : K) else 0)
        (fun c _ => by dsimp only; split_ifs <;> norm_num) (Finset.mem_range.mpr hc0)
      simpa [hm0] using this
    have h2 := Finset.single_le_sum
      (f := fun r => ∑ c in Finset.range L.cols, if mask.px r c ≠ 0 then (1 : K) else 0)
      hinner (Finset.mem_range.mpr hr0)
    exact lt_of_lt_of_le zero_lt_one (le_trans h1 h2)
  rw [hsum, mul_div_assoc, div_self (ne_of_gt hpos), mul_one]

theorem luminanceMean_nonneg {K : Type} [LinearOrderedField K] (L : Mat K) (mask : Mat uchar)
    (hL : ∀ r c, r < L.rows → c < L.cols → 0 ≤ L.px r c) :
    0 ≤ LuminanceMeanWithMask L mask := by
  unfold LuminanceMeanWithMask
  apply div_nonneg
  · refine Finset.sum_nonneg (fun r hr => Finset.sum_nonneg (fun c hc => ?_))
    split_ifs
    · exact hL r c (Finset.mem_range.mp hr) (Finset.mem_range.mp hc)
    · exact le_refl 0
  · refine Finset.sum_nonneg (fun r _ => Finset.sum_nonneg (fun c _ => ?_))
    split_ifs <;> norm_num

theorem linearize8bitRGB_white_nonneg : 0 ≤ linearize8bitRGB Real.rpow (255 : uchar) := by
  have hv : ((255 : uchar).val : ℕ) = 255 := rfl
  unfold linearize8bitRGB
  simp only [hv]
  rw [if_neg (by norm_num)]
  exact Real.rpow_nonneg (by norm_num) _

/-- The direct path of `calculateLuminance` on a non-empty image. -/
theorem calculateLuminance_direct {K : Type} [LinearOrderedField K] (pow : K → K → K)
    (img : Mat Vec3b) (hne : img.empty = false) :
    calculateLuminance pow none img =
      .ok { rows := img.rows, cols := img.cols,
            px := fun r c =>
              0.0722 * linearize8bitRGB pow (img.px r c).c0 +
                0.7152 * linearize8bitRGB pow (img.px r c).c1 +
                0.2126 * linearize8bitRGB pow (img.px r c).c2 } := by
  unfold calculateLuminance
  simp only [hne, Bool.not_false, if_true]
  rfl

/-! ## Luminance and contrast: the claims -/

/-- C3 (the code departs from the stated formula): above the linear branch, that is for every
channel value greater than 10, `linearize8bitRGB` divides by `1.1055` and so returns strictly
less than the stated `((c/255 + 0.055)/1.055)^2.4`. -/
theorem linearize8bitRGB_lt_spec (c : uchar) (h : 10 < c.val) :
    linearize8bitRGB Real.rpow c < srgbLinearizeSpec Real.rpow c := by
  have hc : (11 : ℝ) ≤ ((c.val : ℕ) : ℝ) := by exact_mod_cast h
  have hgt : ¬ ((c.val : ℕ) : ℝ) / 255.0 ≤ 0.04045 := by
    rw [not_le]; norm_num; linarith
  have hgt2 : ¬ ((c.val : ℕ) : ℝ) / 255 ≤ 0.04045 := by
    rw [not_le]; norm_num; linarith
  unfold linearize8bitRGB srgbLinearizeSpec
  simp only [if_neg hgt, if_neg hgt2]
  have hnum : (0 : ℝ) < ((c.val : ℕ) : ℝ) / 255.0 + 0.055 := by
    have : (0 : ℝ) ≤ ((c.val : ℕ) : ℝ) / 255.0 := by positivity
    linarith
  have hnum2 : ((c.val : ℕ) : ℝ) / 255 = ((c.val : ℕ) : ℝ) / 255.0 := by norm_num
  rw [hnum2]
  apply Real.rpow_lt_rpow
  · exact le_of_lt (div_pos hnum (by norm_num))
  · exact div_lt_div_of_pos_left hnum (by norm_num) (by norm_num)
  · norm_num

/-- Witness of `linearize8bitRGB_lt_spec` at the channel value 255. -/
theorem linearize8bitRGB_lt_spec_witness :
    linearize8bitRGB Real.rpow (255 : uchar) < srgbLinearizeSpec Real.rpow (255 : uchar) :=
  linearize8bitRGB_lt_spec 255 (by decide)

/-- C4 (the code departs from the stated value): on the direct path, every value of the
luminance map of a non-empty pure-white image is strictly less than 1, and so is the mean
under a full-coverage mask. -/
theorem calculateLuminance_white_lt_one (img : Mat Vec3b) (mask : Mat uchar)
    (hne : img.empty = false)
    (hwhite : ∀ r c, r < img.rows → c < img.cols → img.px r c = ⟨255, 255, 255⟩)
    (hfull : ∀ r c, r < img.rows → c < img.cols → mask.px r c ≠ 0) :
    ∃ L : Mat ℝ, calculateLuminance Real.rpow none img = .ok L ∧
      L.rows = img.rows ∧ L.cols = img.cols ∧
      (∀ r c, r < L.rows → c < L.cols → L.px r c < 1) ∧
      LuminanceMeanWithMask L mask < 1 := by
  refine ⟨_, calculateLuminance_direct Real.rpow img hne, rfl, rfl, ?_, ?_⟩
  · intro r c hr hc
    show 0.0722 * linearize8bitRGB Real.rpow (img.px r c).c0 +
        0.7152 * linearize8bitRGB Real.rpow (img.px r c).c1 +
        0.2126 * linearize8bitRGB Real.rpow (img.px r c).c2 < 1
    rw [hwhite r c hr hc]
    have := linearize8bitRGB_white_lt_one
    linarith
  · have hrc : 0 < img.rows ∧ 0 < img.cols := by
      simp only [Mat.empty, Bool.or_eq_false_iff, beq_eq_false_iff_ne] at hne
      exact ⟨Nat.pos_of_ne_zero hne.1, Nat.pos_of_ne_zero hne.2⟩
    rw [luminanceMean_const _ mask (linearize8bitRGB Real.rpow (255 : uchar))]
    · exact linearize8bitRGB_white_lt_one
    · intro r c hr hc _
      show 0.0722 * linearize8bitRGB Real.rpow (img.px r c).c0 +
        0.7152 * linearize8bitRGB Real.rpow (img.px r c).c1 +
        0.2126 * linearize8bitRGB Real.rpow (img.px r c).c2 = _
      rw [hwhite r c hr hc]
      ring
    · exact ⟨0, 0, hrc.1, hrc.2, hfull 0 0 hrc.1 hrc.2⟩

/-- Witness of `calculateLuminance_white_lt_one`: a single white pixel under a mask of ones. -/
theorem calculateLuminance_white_lt_one_witness :
    ∃ L : Mat ℝ, calculateLuminance Real.rpow none (rowImage [⟨255, 255, 255⟩]) = .ok L ∧
      L.rows = (rowImage [⟨255, 255, 255⟩]).rows ∧
      L.cols = (rowImage [⟨255, 255, 255⟩]).cols ∧
      (∀ r c, r < L.rows → c < L.cols → L.px r c < 1) ∧
      LuminanceMeanWithMask L (rowMask [1]) < 1 :=
  calculateLuminance_white_lt_one (rowImage [⟨255, 255, 255⟩]) (rowMask [1]) rfl
    (by
      intro r c _ hc
      have hc0 : c = 0 := by simpa [rowImage] using hc
      subst hc0
      rfl)
    (by
      intro r c _ hc
      have hc0 : c = 0 := by simpa [rowImage] using hc
      subst hc0
      simp [rowMask])

/-- C2 (the code departs from the stated value): on the direct path, for every frame split
into a non-empty pure-white region selected by mask A and a non-empty pure-black region
selected by its complement B, `ContrastBetweenRegions` on the luminance map of
`calculateLuminance` is `(linearize8bitRGB 255 + 0.05) / 0.05`, which is strictly less
than 21. -/
theorem contrast_white_black_lt_21 (img : Mat Vec3b) (maskA maskB : Mat uchar)
    (hne : img.empty = false)
    (hwhite : ∀ r c, r < img.rows → c < img.cols → maskA.px r c ≠ 0 →
      img.px r c = ⟨255, 255, 255⟩)
    (hblack : ∀ r c, r < img.rows → c < img.cols → maskA.px r c = 0 →
      img.px r c = ⟨0, 0, 0⟩)
    (hcompl : ∀ r c, r < img.rows → c < img.cols → (maskB.px r c ≠ 0 ↔ maskA.px r c = 0))
    (hA : ∃ r c, r < img.rows ∧ c < img.cols ∧ maskA.px r c ≠ 0)
    (hB : ∃ r c, r < img.rows ∧ c < img.cols ∧ maskA.px r c = 0) :
    ∃ L : Mat ℝ, calculateLuminance Real.rpow none img = .ok L ∧
      ContrastBetweenRegions LuminanceMeanWithMask L maskA maskB =
        (linearize8bitRGB Real.rpow (255 : uchar) + 0.05) / 0.05 ∧
      ContrastBetweenRegions LuminanceMeanWithMask L maskA maskB < 21 := by
  refine ⟨_, calculateLuminance_direct Real.rpow img hne, ?_⟩
  have hmA : LuminanceMeanWithMask
      ({ rows := img.rows, cols := img.cols,
         px := fun r c =>
           0.0722 * linearize8bitRGB Real.rpow (img.px r c).c0 +
             0.7152 * linearize8bitRGB Real.rpow (img.px r c).c1 +
             0.2126 * linearize8bitRGB Real.rpow (img.px r c).c2 } : Mat ℝ) maskA =
      linearize8bitRGB Real.rpow (255 : uchar) := by
    apply luminanceMean_const
    · intro r c hr hc hm
      show 0.0722 * linearize8bitRGB Real.rpow (img.px r c).c0 +
        0.7152 * linearize8bitRGB Real.rpow (img.px r c).c1 +
        0.2126 * linearize8bitRGB Real.rpow (img.px r c).c2 = _
      rw [hwhite r c hr hc hm]
      ring
    · exact hA
  have hmB : LuminanceMeanWithMask
      ({ rows := img.rows, cols := img.cols,
         px := fun r c =>
           0.0722 * linearize8bitRGB Real.rpow (img.px r c).c0 +
             0.7152 * linearize8bitRGB Real.rpow (img.px r c).c1 +
             0.2126 * linearize8bitRGB Real.rpow (img.px r c).c2 } : Mat ℝ) maskB = 0 := by
    apply luminanceMean_const
    · intro r c hr hc hm
      show 0.0722 * linearize8bitRGB Real.rpow (img.px r c).c0 +
        0.7152 * linearize8bitRGB Real.rpow (img.px r c).c1 +
        0.2126 * linearize8bitRGB Real.rpow (img.px r c).c2 = _
      rw [hblack r c hr hc ((hcompl r c hr hc).mp hm), linearize8bitRGB_black]
      ring
    · obtain ⟨r, c, hr, hc, hm⟩ := hB
      exact ⟨r, c, hr, hc, (hcompl r c hr hc).mpr hm⟩
  have h0 := linearize8bitRGB_white_nonneg
  have h1 := linearize8bitRGB_white_lt_one
  have hval : ContrastBetweenRegions LuminanceMeanWithMask
      ({ rows := img.rows, cols := img.cols,
         px := fun r c =>
           0.0722 * linearize8bitRGB Real.rpow (img.px r c).c0 +
             0.7152 * linearize8bitRGB Real.rpow (img.px r c).c1 +
             0.2126 * linearize8bitRGB Real.rpow (img.px r c).c2 } : Mat ℝ) maskA maskB =
      (linearize8bitRGB Real.rpow (255 : uchar) + 0.05) / 0.05 := by
    unfold ContrastBetweenRegions
    simp only [hmA, hmB, max_eq_left h0, min_eq_right h0, zero_add]
  refine ⟨hval, ?_⟩
  rw [hval, div_lt_iff₀ (by norm_num)]
  norm_num
  linarith

/-- Witness of `contrast_white_black_lt_21`: a frame of one white and one black pixel, mask A
selecting the white pixel and mask B, its bitwise complement, the black one. -/
theorem contrast_white_black_lt_21_witness :
    ∃ L : Mat ℝ,
      calculateLuminance Real.rpow none (rowImage [⟨255, 255, 255⟩, ⟨0, 0, 0⟩]) = .ok L ∧
      ContrastBetweenRegions LuminanceMeanWithMask L (rowMask [255, 0]) (rowMask [0, 255]) =
        (linearize8bitRGB Real.rpow (255 : uchar) + 0.05) / 0.05 ∧
      ContrastBetweenRegions LuminanceMeanWithMask L (rowMask [255, 0]) (rowMask [0, 255]) <
        21 :=
  contrast_white_black_lt_21 (rowImage [⟨255, 255, 255⟩, ⟨0, 0, 0⟩]) (rowMask [255, 0])
    (rowMask [0, 255]) rfl
    (by
      intro r c _ hc hm
      have hc2 : c < 2 := by simpa [rowImage] using hc
      interval_cases c
      · rfl
      · exact absurd rfl hm)
    (by
      intro r c _ hc hm
      have hc2 : c < 2 := by simpa [rowImage] using hc
      interval_cases c
      · exact absurd hm (by simp [rowMask])
      · rfl)
    (by
      intro r c _ hc
      have hc2 : c < 2 := by simpa [rowImage] using hc
      interval_cases c <;> simp [rowMask])
    ⟨0, 0, by decide, by decide, by decide⟩
    ⟨0, 1, by decide, by decide, by decide⟩

/-- C5: `ContrastBetweenRegions` is symmetric in its two masks, for every luminance map and
every pair of masks, whatever mean the helper `Frame::LuminanceMeanWithMask` computes. -/
theorem ContrastBetweenRegions_comm {K : Type} [LinearOrderedField K]
    (mean : Mat K → Mat uchar → K) (luminanceMap : Mat K) (maskA maskB : Mat uchar) :
    ContrastBetweenRegions mean luminanceMap maskA maskB =
      ContrastBetweenRegions mean luminanceMap maskB maskA := by
  unfold ContrastBetweenRegions
  simp only [max_comm, min_comm]

/-- C6: for a luminance map with values in `[0, 1]` and two non-empty masks,
`ContrastBetweenRegions` returns `(max(meanA, meanB) + 0.05) / (min(meanA, meanB) + 0.05)`,
the means being those of the map over each mask, and this value is at least 1. -/
theorem ContrastBetweenRegions_ge_one {K : Type} [LinearOrderedField K]
    (luminanceMap : Mat K) (maskA maskB : Mat uchar)
    (hL : ∀ r c, r < luminanceMap.rows → c < luminanceMap.cols →
      0 ≤ luminanceMap.px r c ∧ luminanceMap.px r c ≤ 1)
    (_hA : ∃ r c, r < luminanceMap.rows ∧ c < luminanceMap.cols ∧ maskA.px r c ≠ 0)
    (_hB : ∃ r c, r < luminanceMap.rows ∧ c < luminanceMap.cols ∧ maskB.px r c ≠ 0) :
    ContrastBetweenRegions LuminanceMeanWithMask luminanceMap maskA maskB =
      (max (LuminanceMeanWithMask luminanceMap maskA) (LuminanceMeanWithMask luminanceMap maskB)
          + 0.05) /
        (min (LuminanceMeanWithMask luminanceMap maskA)
          (LuminanceMeanWithMask luminanceMap maskB) + 0.05) ∧
      1 ≤ ContrastBetweenRegions LuminanceMeanWithMask luminanceMap maskA maskB := by
  refine ⟨rfl, ?_⟩
  have hmA := luminanceMean_nonneg luminanceMap maskA (fun r c hr hc => (hL r c hr hc).1)
  have hmB := luminanceMean_nonneg luminanceMap maskB (fun r c hr hc => (hL r c hr hc).1)
  have hmin : 0 ≤ min (LuminanceMeanWithMask luminanceMap maskA)
      (LuminanceMeanWithMask luminanceMap maskB) := le_min hmA hmB
  have h5 : (0 : K) < 0.05 := by norm_num
  unfold ContrastBetweenRegions
  rw [one_le_div (by linarith)]
  have := min_le_max (a := LuminanceMeanWithMask luminanceMap maskA)
    (b := LuminanceMeanWithMask luminanceMap maskB)
  linarith

/-! ## Configuration: `AppSettings::init` and the masks -/

theorem bind_ok_inv {ε α β : Type} {x : Except ε α} {f : α → Except ε β} {b : β}
    (h : (x >>= f) = .ok b) : ∃ a, x = .ok a ∧ f a = .ok b := by
  cases x with
  | error e => cases h
  | ok a => exact ⟨a, rfl, h⟩

theorem loadBool_ok_inv {settings : Json} {key : String} {s s' : AppSettings}
    {set : AppSettings → Bool → AppSettings} (h : loadBool settings key s set = .ok s') :
    ∃ b, s' = set s b := by
  unfold loadBool at h
  split at h
  · cases h; exact ⟨_, rfl⟩
  · cases h

theorem loadInt_ok_inv {settings : Json} {key : String} {s s' : AppSettings}
    {set : AppSettings → Int → AppSettings} (h : loadInt settings key s set = .ok s') :
    ∃ n, s' = set s n := by
  unfold loadInt at h
  split at h
  · cases h; exact ⟨_, rfl⟩
  · cases h

theorem loadColor_ok_inv {settings : Json} {key : String} {s s' : AppSettings}
    {set : AppSettings → Scalar → AppSettings} (h : loadColor settings key s set = .ok s') :
    ∃ v, s' = set s v := by
  unfold loadColor at h
  split at h
  · cases h; exact ⟨_, rfl⟩
  · cases h

/-- When the `focusMask` value of the configuration is empty, a successful
`AppSettings::init` leaves both mask lists as they were: `setFocusMask` is not called. -/
theorem init_empty_focus_keeps_masks (s₀ s : AppSettings) (settings : Json)
    (hfocus : loadRects settings "focusMask" = .ok [])
    (hinit : s₀.init settings = .ok s) :
    s.focusMasks = s₀.focusMasks ∧ s.ignoreMasks = s₀.ignoreMasks := by
  unfold AppSettings.init at hinit
  rw [hfocus] at hinit
  obtain ⟨backend, -, hinit⟩ := bind_ok_inv hinit
  obtain ⟨s1, h1, hinit⟩ := bind_ok_inv hinit
  have hs1 : s1.focusMasks = s₀.focusMasks ∧ s1.ignoreMasks = s₀.ignoreMasks := by
    unfold selectBackend at h1
    split at h1
    · cases h1; exact ⟨rfl, rfl⟩
    · split at h1
      · cases h1; exact ⟨rfl, rfl⟩
      · cases h1
  obtain ⟨focus, hf, hinit⟩ := bind_ok_inv hinit
  cases hf
  obtain ⟨ignore, -, hinit⟩ := bind_ok_inv hinit
  obtain ⟨s1b, h1b, hinit⟩ := bind_ok_inv hinit
  cases h1b
  simp only [List.isEmpty_nil, Bool.not_true, Bool.false_eq_true, if_false] at hinit
  obtain ⟨s2, h2, hinit⟩ := bind_ok_inv hinit
  obtain ⟨b2, rfl⟩ := loadBool_ok_inv h2
  obtain ⟨s3, h3, hinit⟩ := bind_ok_inv hinit
  obtain ⟨b3, rfl⟩ := loadBool_ok_inv h3
  obtain ⟨s4, h4, hinit⟩ := bind_ok_inv hinit
  obtain ⟨b4, rfl⟩ := loadBool_ok_inv h4
  obtain ⟨s5, h5, hinit⟩ := bind_ok_inv hinit
  obtain ⟨b5, rfl⟩ := loadBool_ok_inv h5
  obtain ⟨s6, h6, hinit⟩ := bind_ok_inv hinit
  obtain ⟨b6, rfl⟩ := loadBool_ok_inv h6
  obtain ⟨s7, h7, hinit⟩ := bind_ok_inv hinit
  obtain ⟨b7, rfl⟩ := loadBool_ok_inv h7
  obtain ⟨s8, h8, hinit⟩ := bind_ok_inv hinit
  obtain ⟨b8, rfl⟩ := loadBool_ok_inv h8
  obtain ⟨s9, h9, hinit⟩ := bind_ok_inv hinit
  obtain ⟨b9, rfl⟩ := loadBool_ok_inv h9
  obtain ⟨s10, h10, hinit⟩ := bind_ok_inv hinit
  obtain ⟨b10, rfl⟩ := loadBool_ok_inv h10
  obtain ⟨s11, h11, hinit⟩ := bind_ok_inv hinit
  obtain ⟨b11, rfl⟩ := loadBool_ok_inv h11
  obtain ⟨s12, h12, hinit⟩ := bind_ok_inv hinit
  obtain ⟨n12, rfl⟩ := loadInt_ok_inv h12
  obtain ⟨s13, h13, hinit⟩ := bind_ok_inv hinit
  obtain ⟨n13, rfl⟩ := loadInt_ok_inv h13
  obtain ⟨s14, h14, hinit⟩ := bind_ok_inv hinit
  obtain ⟨v14, rfl⟩ := loadColor_ok_inv h14
  obtain ⟨s15, h15, hinit⟩ := bind_ok_inv hinit
  obtain ⟨v15, rfl⟩ := loadColor_ok_inv h15
  obtain ⟨s16, h16, hinit⟩ := bind_ok_inv hinit
  obtain ⟨v16, rfl⟩ := loadColor_ok_inv h16
  obtain ⟨s17, h17, hinit⟩ := bind_ok_inv hinit
  obtain ⟨v17, rfl⟩ := loadColor_ok_inv h17
  obtain ⟨n18, -, hinit⟩ := bind_ok_inv hinit
  obtain ⟨n19, -, hinit⟩ := bind_ok_inv hinit
  cases hinit
  exact hs1

/-- C9 (the code departs from the claim): a settings object whose focus is the full unit
rectangle and whose ignore list is empty is initialised from a configuration with an empty
`focusMask` and the ignore rectangle `(0, 0, 0.5, 0.5)`. `init` succeeds, but the ignore
rectangle is not stored: the ignore list stays empty and `calculateMask` on a 2 x 2 frame
keeps pixel (0, 0), which lies inside the configured ignore rectangle. -/
theorem init_empty_focus_drops_ignore :
    ∃ (s : AppSettings) (mask : Mat Vec3b),
      (sampleSettings [⟨0, 0, 1, 1⟩] []).init
          (sampleConfig (Json.arr []) (Json.arr [rectJson 0 0 (1/2) (1/2)]) false false false) =
        .ok s ∧
      s.focusMasks = [⟨0, 0, 1, 1⟩] ∧ s.ignoreMasks = [] ∧
      s.calculateMask 2 2 = .ok mask ∧ mask.px 0 0 = keepPx ∧
      (absRect ⟨0, 0, 1/2, 1/2⟩ 2 2).containsPx 0 0 = true := by
  have hex : ∃ s, (sampleSettings [⟨0, 0, 1, 1⟩] []).init
      (sampleConfig (Json.arr []) (Json.arr [rectJson 0 0 (1/2) (1/2)]) false false false) =
      .ok s := ⟨_, rfl⟩
  obtain ⟨s, hs⟩ := hex
  have hload : loadRects
      (sampleConfig (Json.arr []) (Json.arr [rectJson 0 0 (1/2) (1/2)]) false false false)
      "focusMask" = .ok [] := rfl
  obtain ⟨hf, hi⟩ := init_empty_focus_keeps_masks _ s _ hload hs
  have hf' : s.focusMasks = [⟨0, 0, 1, 1⟩] := hf
  have hi' : s.ignoreMasks = [] := hi
  have hin : ∀ rect ∈ s.focusMasks, (absRect rect 2 2).insideDims 2 2 = true := by
    rw [hf']
    norm_num [absRect, truncToInt, Rect.insideDims]
  have hig : ∀ rect ∈ s.ignoreMasks, (absRect rect 2 2).insideDims 2 2 = true := by
    rw [hi']
    intro r hr
    cases hr
  refine ⟨s, _, hs, hf', hi', calculateMask_ok s 2 2 hin hig, ?_, ?_⟩
  · simp only [hf', hi']
    norm_num [absRect, truncToInt, Rect.containsPx]
  · norm_num [absRect, truncToInt, Rect.containsPx]

/-! ## The frame pipeline -/

theorem mergeTextBoxes_invoked {Textbox FR : Type} (f : Fonttik Textbox FR)
    (textBoxes : List Textbox)
    (h : f.textDetectionParams.getMergeThreshold.1 < 1 ∨
      f.textDetectionParams.getMergeThreshold.2 < 1) :
    f.mergeTextBoxes textBoxes =
      (f.mergeBoxes textBoxes f.textDetectionParams, [Call.mergeTextBoxes]) := by
  have h' : f.textDetectionParams.getMergeThreshold.1 < 1.0 ∨
      f.textDetectionParams.getMergeThreshold.2 < 1.0 := by
    norm_num
    exact h
  unfold Fonttik.mergeTextBoxes
  simp only [if_pos h']

/-- C7 (as stated, refuted): with the merge thresholds `(0.5, 1.0)`, whose second component
is at least 1.0, `mergeTextBoxes` does invoke the textbox merger. -/
theorem mergeTextBoxes_one_component_invokes :
    ((sampleFonttik (fun _ => .ok []) (1/2, 1)).mergeTextBoxes [7, 8]).2 =
      [Call.mergeTextBoxes] := by
  rw [mergeTextBoxes_invoked _ _ (Or.inl (by
    norm_num [sampleFonttik, TextDetectionParams.setMergeThreshold,
      TextDetectionParams.getMergeThreshold]))]

/-- C7 (amended): when both components of the merge-threshold pair are at least 1.0,
`mergeTextBoxes` does not invoke the textbox merger and leaves the list unchanged. -/
theorem mergeTextBoxes_skipped {Textbox FR : Type} (f : Fonttik Textbox FR)
    (textBoxes : List Textbox)
    (h : 1 ≤ f.textDetectionParams.getMergeThreshold.1 ∧
      1 ≤ f.textDetectionParams.getMergeThreshold.2) :
    f.mergeTextBoxes textBoxes = (textBoxes, []) := by
  have h' : ¬ (f.textDetectionParams.getMergeThreshold.1 < 1.0 ∨
      f.textDetectionParams.getMergeThreshold.2 < 1.0) := by
    norm_num
    exact h
  unfold Fonttik.mergeTextBoxes
  simp only [if_neg h']

/-- Witness of `mergeTextBoxes_skipped` at the thresholds `(1, 3/2)`. -/
theorem mergeTextBoxes_skipped_witness :
    (sampleFonttik (fun _ => .ok []) (1, 3/2)).mergeTextBoxes [7, 8] = ([7, 8], []) :=
  mergeTextBoxes_skipped (sampleFonttik (fun _ => .ok []) (1, 3/2)) [7, 8]
    (by norm_num [sampleFonttik, TextDetectionParams.setMergeThreshold,
      TextDetectionParams.getMergeThreshold])

theorem processMedia_append {Textbox FR : Type} (f : Fonttik Textbox FR) (pre rest : List Frame) :
    ∀ res : Results FR,
      f.processMedia (pre ++ rest) res = (f.processMedia pre res >>= f.processMedia rest) := by
  induction pre with
  | nil => intro res; rfl
  | cons frame pre ih =>
    intro res
    show f.processMedia (frame :: (pre ++ rest)) res = _
    simp only [Fonttik.processMedia]
    cases f.processFrame frame with
    | error e => rfl
    | ok r =>
      obtain ⟨r1, r2⟩ := r
      exact ih _

theorem processFrame_of_detector_error {Textbox FR : Type} (f : Fonttik Textbox FR)
    (frame masked : Frame) (e : String)
    (hmask : f.applyFocusMask frame = .ok masked)
    (hdet : f.detectBoxes masked.image = .error e) :
    f.processFrame frame = .error e := by
  unfold Fonttik.processFrame
  rw [hmask]
  show (f.getTextBoxes masked >>= _) = _
  unfold Fonttik.getTextBoxes
  rw [hdet]
  rfl

theorem applyFocusMask_ok {Textbox FR : Type} (f : Fonttik Textbox FR) (frame : Frame)
    (mask : Mat Vec3b)
    (hm : f.appSettings.calculateMask frame.image.cols frame.image.rows = .ok mask) :
    f.applyFocusMask frame = .ok { image := frame.image.bitwiseAnd mask } := by
  unfold Fonttik.applyFocusMask
  show (f.appSettings.calculateMask frame.image.cols frame.image.rows >>= _) = _
  rw [hm]
  rfl

/-- The focus mask of the sample object on a single-pixel frame keeps the pixel. -/
theorem sampleFonttik_applyFocusMask (detect : Mat Vec3b → Except String (List Nat))
    (threshold : ℚ × ℚ) (px : Vec3b) :
    ∃ masked : Frame,
      (sampleFonttik detect threshold).applyFocusMask { image := rowImage [px] } = .ok masked ∧
      masked.image.px 0 0 = ⟨px.c0 &&& 255, px.c1 &&& 255, px.c2 &&& 255⟩ := by
  have hin : ∀ rect ∈ (sampleFonttik detect threshold).appSettings.focusMasks,
      (absRect rect 1 1).insideDims 1 1 = true := by
    norm_num [sampleFonttik, sampleSettings, absRect, truncToInt, Rect.insideDims]
  have hig : ∀ rect ∈ (sampleFonttik detect threshold).appSettings.ignoreMasks,
      (absRect rect 1 1).insideDims 1 1 = true := by
    intro r hr
    cases hr
  have hm := calculateMask_ok (sampleFonttik detect threshold).appSettings 1 1 hin hig
  refine ⟨_, applyFocusMask_ok (sampleFonttik detect threshold) { image := rowImage [px] } _ hm,
    ?_⟩
  · simp only [Mat.bitwiseAnd, rowImage, List.getD_cons_zero]
    norm_num [sampleFonttik, sampleSettings, absRect, truncToInt, Rect.containsPx, keepPx]

/-- C8 (as stated, refuted): with a detector that fails, `processFrame` does not yield the
pair of `FrameResults(-1)` but fails with the detector's error, and `processMedia` on two
frames fails with it too instead of processing the second frame. -/
theorem processFrame_detector_failure_not_recovered :
    (sampleFonttik (fun _ => .error "detector failure") (1, 1)).processFrame blackFrame =
        .error "detector failure" ∧
      (sampleFonttik (fun _ => .error "detector failure") (1, 1)).processMedia
          [blackFrame, whiteFrame] ⟨[], []⟩ = .error "detector failure" := by
  obtain ⟨masked, hmask, -⟩ :=
    sampleFonttik_applyFocusMask (fun _ => .error "detector failure") (1, 1) ⟨0, 0, 0⟩
  have hframe := processFrame_of_detector_error
    (sampleFonttik (fun _ => .error "detector failure") (1, 1)) blackFrame masked
    "detector failure" hmask rfl
  refine ⟨hframe, ?_⟩
  simp only [Fonttik.processMedia, hframe]
  rfl

/-- C8 (amended): when the external detector fails on a frame, `processFrame` yields no
result for that frame but propagates the failure, and `processMedia` propagates it as well:
whatever frames precede (processed without failure) and follow, the media run ends with the
detector's error and no subsequent frame is processed. -/
theorem processFrame_detector_failure_propagates {Textbox FR : Type} (f : Fonttik Textbox FR)
    (frame masked : Frame) (e : String) (pre post : List Frame) (res res' : Results FR)
    (hmask : f.applyFocusMask frame = .ok masked)
    (hdet : f.detectBoxes masked.image = .error e)
    (hpre : f.processMedia pre res = .ok res') :
    f.processFrame frame = .error e ∧
      f.processMedia (pre ++ frame :: post) res = .error e := by
  have hframe := processFrame_of_detector_error f frame masked e hmask hdet
  refine ⟨hframe, ?_⟩
  rw [processMedia_append, hpre]
  show f.processMedia (frame :: post) res' = _
  simp only [Fonttik.processMedia, hframe]
  rfl

theorem processFrame_of_no_boxes {Textbox FR : Type} (f : Fonttik Textbox FR)
    (frame masked : Frame) (boxes : List Textbox)
    (hmask : f.applyFocusMask frame = .ok masked)
    (hdet : f.detectBoxes masked.image = .ok boxes)
    (hempty : (f.mergeTextBoxes boxes).1 = []) :
    f.processFrame frame =
      .ok ((f.frameResults (-1), f.frameResults (-1)),
        [Call.detectBoxes] ++ (f.mergeTextBoxes boxes).2) := by
  unfold Fonttik.processFrame
  rw [hmask]
  show (f.getTextBoxes masked >>= _) = _
  unfold Fonttik.getTextBoxes
  rw [hdet]
  show (if (f.mergeTextBoxes boxes).1.isEmpty = true then _ else _) = _
  rw [hempty]
  rfl

/-- Witness of `processFrame_detector_failure_propagates`: the detector finds no text in the
black frame and fails on the white frame; the media consists of a black, a white and a
black frame. -/
theorem processFrame_detector_failure_propagates_witness :
    (sampleFonttik blackOnlyDetector (1, 1)).processFrame whiteFrame =
        .error "detector failure" ∧
      (sampleFonttik blackOnlyDetector (1, 1)).processMedia
          ([blackFrame] ++ whiteFrame :: [blackFrame]) ⟨[], []⟩ = .error "detector failure" := by
  obtain ⟨maskedW, hmaskW, hpxW⟩ :=
    sampleFonttik_applyFocusMask blackOnlyDetector (1, 1) ⟨255, 255, 255⟩
  obtain ⟨maskedB, hmaskB, hpxB⟩ :=
    sampleFonttik_applyFocusMask blackOnlyDetector (1, 1) ⟨0, 0, 0⟩
  have hdetW : (sampleFonttik blackOnlyDetector (1, 1)).detectBoxes maskedW.image =
      .error "detector failure" := by
    show blackOnlyDetector maskedW.image = _
    unfold blackOnlyDetector
    rw [hpxW]
    rfl
  have hdetB : (sampleFonttik blackOnlyDetector (1, 1)).detectBoxes maskedB.image = .ok [] := by
    show blackOnlyDetector maskedB.image = _
    unfold blackOnlyDetector
    rw [hpxB]
    rfl
  have hskip : (sampleFonttik blackOnlyDetector (1, 1)).mergeTextBoxes [] = ([], []) := by
    unfold Fonttik.mergeTextBoxes
    norm_num [sampleFonttik, TextDetectionParams.setMergeThreshold,
      TextDetectionParams.getMergeThreshold]
  have hB := processFrame_of_no_boxes (sampleFonttik blackOnlyDetector (1, 1)) blackFrame
    maskedB [] hmaskB hdetB (by rw [hskip])
  have hpre : (sampleFonttik blackOnlyDetector (1, 1)).processMedia [blackFrame] ⟨[], []⟩ =
      .ok ⟨[-1], [-1]⟩ := by
    simp only [Fonttik.processMedia, hB]
    rfl
  exact processFrame_detector_failure_propagates (sampleFonttik blackOnlyDetector (1, 1))
    whiteFrame maskedW "detector failure" [blackFrame] [blackFrame] ⟨[], []⟩ ⟨[-1], [-1]⟩
    hmaskW hdetW hpre

/-- Witness of `ContrastBetweenRegions_ge_one`: the rational map `[1, 0]` with mask A on
the first and mask B on the second pixel. -/
theorem ContrastBetweenRegions_ge_one_witness :
    ContrastBetweenRegions LuminanceMeanWithMask (rowMap [(1 : ℚ), 0]) (rowMask [255, 0])
        (rowMask [0, 255]) =
      (max (LuminanceMeanWithMask (rowMap [(1 : ℚ), 0]) (rowMask [255, 0]))
          (LuminanceMeanWithMask (rowMap [(1 : ℚ), 0]) (rowMask [0, 255])) + 0.05) /
        (min (LuminanceMeanWithMask (rowMap [(1 : ℚ), 0]) (rowMask [255, 0]))
          (LuminanceMeanWithMask (rowMap [(1 : ℚ), 0]) (rowMask [0, 255])) + 0.05) ∧
      1 ≤ ContrastBetweenRegions LuminanceMeanWithMask (rowMap [(1 : ℚ), 0])
        (rowMask [255, 0]) (rowMask [0, 255]) :=
  ContrastBetweenRegions_ge_one (rowMap [(1 : ℚ), 0]) (rowMask [255, 0]) (rowMask [0, 255])
    (by
      intro r c _ hc
      have hc2 : c < 2 := by simpa [rowMap] using hc
      interval_cases c <;> simp [rowMap])
    ⟨0, 0, by decide, by decide, by decide⟩
    ⟨0, 1, by decide, by decide, by decide⟩

/-! ## Configuration: the backend name -/

theorem bind_error_of {ε α β : Type} (P : ε → Prop) {x : Except ε α} {f : α → Except ε β}
    (hx : ∀ e, x = .error e → P e) (hf : ∀ a e, f a = .error e → P e) :
    ∀ e, (x >>= f) = .error e → P e := by
  intro e h
  cases x with
  | error e' => cases h; exact hx _ rfl
  | ok a => exact hf a e h

theorem getKey_error_ne (data : Json) (key e : String) (h : data.getKey key = .error e) :
    e ≠ "Invalid Backend" := by
  cases data <;> simp only [Json.getKey] at h <;> cases h <;> decide

theorem toBool_error_ne (data : Json) (e : String) (h : data.toBool = .error e) :
    e ≠ "Invalid Backend" := by
  cases data <;> simp only [Json.toBool] at h <;> cases h <;> decide

theorem toInt_error_ne (data : Json) (e : String) (h : data.toInt = .error e) :
    e ≠ "Invalid Backend" := by
  cases data <;> simp only [Json.toInt] at h <;> cases h <;> decide

theorem toFloat_error_ne (data : Json) (e : String) (h : data.toFloat = .error e) :
    e ≠ "Invalid Backend" := by
  cases data <;> simp only [Json.toFloat] at h <;> cases h <;> decide

theorem getIdx_error_ne (data : Json) (i : Nat) (e : String) (h : data.getIdx i = .error e) :
    e ≠ "Invalid Backend" := by
  cases data <;> simp only [Json.getIdx] at h <;> cases h <;> decide

theorem pure_error_ne {α : Type} (P : String → Prop) (a : α) :
    ∀ e, (pure a : Except String α) = .error e → P e := by
  intro e h
  cases h

theorem RectFromJson_error_ne (data : Json) :
    ∀ e, RectFromJson data = .error e → e ≠ "Invalid Backend" := by
  unfold RectFromJson
  refine bind_error_of _ (getKey_error_ne _ _) (fun jx => ?_)
  refine bind_error_of _ (toFloat_error_ne _) (fun x => ?_)
  refine bind_error_of _ (getKey_error_ne _ _) (fun jy => ?_)
  refine bind_error_of _ (toFloat_error_ne _) (fun y => ?_)
  refine bind_error_of _ (getKey_error_ne _ _) (fun jw => ?_)
  refine bind_error_of _ (toFloat_error_ne _) (fun w => ?_)
  refine bind_error_of _ (getKey_error_ne _ _) (fun jh => ?_)
  refine bind_error_of _ (toFloat_error_ne _) (fun h => ?_)
  exact pure_error_ne _ _

theorem mapM_RectFromJson_error_ne (items : List Json) :
    ∀ e, items.mapM RectFromJson = .error e → e ≠ "Invalid Backend" := by
  induction items with
  | nil => intro e h; simp only [List.mapM_nil] at h; cases h
  | cons item rest ih =>
    rw [List.mapM_cons]
    refine bind_error_of _ (RectFromJson_error_ne item) (fun r => ?_)
    refine bind_error_of _ ih (fun rs => ?_)
    exact pure_error_ne _ _

theorem loadRects_error_ne (settings : Json) (key : String) :
    ∀ e, loadRects settings key = .error e → e ≠ "Invalid Backend" := by
  unfold loadRects
  exact bind_error_of _ (getKey_error_ne _ _) (fun data => mapM_RectFromJson_error_ne _)

theorem colorComponent_error_ne (data : Json) (i : Nat) :
    ∀ e, colorComponent data i = .error e → e ≠ "Invalid Backend" := by
  unfold colorComponent
  split
  · refine bind_error_of _ (getIdx_error_ne _ _) (fun j => ?_)
    refine bind_error_of _ (toInt_error_ne _) (fun n => ?_)
    exact pure_error_ne _ _
  · exact pure_error_ne _ _

theorem ColorFromJson_error_ne (data : Json) :
    ∀ e, ColorFromJson data = .error e → e ≠ "Invalid Backend" := by
  unfold ColorFromJson
  refine bind_error_of _ (colorComponent_error_ne _ _) (fun v0 => ?_)
  refine bind_error_of _ (colorComponent_error_ne _ _) (fun v1 => ?_)
  refine bind_error_of _ (colorComponent_error_ne _ _) (fun v2 => ?_)
  refine bind_error_of _ (colorComponent_error_ne _ _) (fun v3 => ?_)
  exact pure_error_ne _ _

theorem atState_error {α : Type} (s : AppSettings) (x : Except String α) (P : String → Prop)
    (hx : ∀ e, x = .error e → P e) :
    ∀ err : String × AppSettings, atState s x = .error err → P err.1 ∧ err.2 = s := by
  intro err h
  cases x with
  | ok a => cases h
  | error e => cases h; exact ⟨hx e rfl, rfl⟩

theorem loadBool_error (settings : Json) (key : String) (s : AppSettings)
    (set : AppSettings → Bool → AppSettings) :
    ∀ err : String × AppSettings, loadBool settings key s set = .error err →
      err.1 ≠ "Invalid Backend" ∧ err.2 = s := by
  intro err h
  unfold loadBool at h
  split at h
  · cases h
  · rename_i e he
    cases h
    exact ⟨bind_error_of _ (getKey_error_ne _ _) (fun j => toBool_error_ne j) e he, rfl⟩

theorem loadInt_error (settings : Json) (key : String) (s : AppSettings)
    (set : AppSettings → Int → AppSettings) :
    ∀ err : String × AppSettings, loadInt settings key s set = .error err →
      err.1 ≠ "Invalid Backend" ∧ err.2 = s := by
  intro err h
  unfold loadInt at h
  split at h
  · cases h
  · rename_i e he
    cases h
    exact ⟨bind_error_of _ (getKey_error_ne _ _) (fun j => toInt_error_ne j) e he, rfl⟩

theorem loadColor_error (settings : Json) (key : String) (s : AppSettings)
    (set : AppSettings → Scalar → AppSettings) :
    ∀ err : String × AppSettings, loadColor settings key s set = .error err →
      err.1 ≠ "Invalid Backend" ∧ err.2 = s := by
  intro err h
  unfold loadColor at h
  split at h
  · cases h
  · rename_i e he
    cases h
    refine ⟨bind_error_of _ ?_ (fun j => ColorFromJson_error_ne j) e he, rfl⟩
    exact bind_error_of _ (getKey_error_ne _ _) (fun c => getKey_error_ne c key)

theorem bind_error_at {ε α β : Type} (P : ε → Prop) {x : Except ε α} {f : α → Except ε β}
    (hx : ∀ e, x = .error e → P e) (hf : ∀ a, x = .ok a → ∀ e, f a = .error e → P e) :
    ∀ e, (x >>= f) = .error e → P e := by
  intro e h
  cases x with
  | error e' => cases h; exact hx _ rfl
  | ok a => exact hf a rfl e h

theorem step_error {α : Type} {s s1 : AppSettings} {x : Except (String × AppSettings) α}
    (h : ∀ err : String × AppSettings, x = .error err →
      err.1 ≠ "Invalid Backend" ∧ err.2 = s)
    (hs : s.detectionBackend = s1.detectionBackend) :
    ∀ err : String × AppSettings, x = .error err →
      err.1 ≠ "Invalid Backend" ∧ err.2.detectionBackend = s1.detectionBackend := by
  intro err he
  obtain ⟨h1, h2⟩ := h err he
  exact ⟨h1, by rw [h2]; exact hs⟩

theorem setFocusMask_detectionBackend (s : AppSettings) (focus ignore : List Rect2f) :
    (s.setFocusMask focus ignore).detectionBackend = s.detectionBackend := by
  unfold AppSettings.setFocusMask
  split <;> rfl

theorem atState_error_ne {α : Type} (s : AppSettings) (x : Except String α)
    (hx : ∀ e, x = .error e → e ≠ "Invalid Backend") :
    ∀ err : String × AppSettings, atState s x = .error err →
      err.1 ≠ "Invalid Backend" ∧ err.2 = s :=
  atState_error s x (fun e => e ≠ "Invalid Backend") hx

/-- Once the backend is selected (settings `s1`), a failure of `AppSettings::init` is not the
`Invalid Backend` exception, and the settings at the failure hold the selected backend. -/
theorem init_error_after_backend (s₀ s1 : AppSettings) (settings b : Json)
    (hb : settings.getKey "detectionBackend" = .ok b)
    (hsel : selectBackend s₀ b = .ok s1) :
    ∀ err : String × AppSettings, s₀.init settings = .error err →
      err.1 ≠ "Invalid Backend" ∧ err.2.detectionBackend = s1.detectionBackend := by
  unfold AppSettings.init
  rw [hb]
  show ∀ err, (selectBackend s₀ b >>= _) = .error err → _
  rw [hsel]
  show ∀ err, (atState s1 (loadRects settings "focusMask") >>= _) = .error err → _
  refine bind_error_at _ (step_error (atState_error_ne _ _ (loadRects_error_ne _ _)) rfl)
    (fun focus _ => ?_)
  refine bind_error_at _ (step_error (atState_error_ne _ _ (loadRects_error_ne _ _)) rfl)
    (fun ignore _ => ?_)
  refine bind_error_at _ (fun err h => by cases h) (fun s2 hok => ?_)
  have hs : s2.detectionBackend = s1.detectionBackend := by
    cases hok
    split
    · exact setFocusMask_detectionBackend _ _ _
    · rfl
  clear hok
  refine bind_error_at _ (step_error (loadBool_error _ _ _ _) hs) (fun s' hok => ?_)
  obtain ⟨b0, rfl⟩ := loadBool_ok_inv hok
  clear hok
  refine bind_error_at _ (step_error (loadBool_error _ _ _ _) hs) (fun s' hok => ?_)
  obtain ⟨b1, rfl⟩ := loadBool_ok_inv hok
  clear hok
  refine bind_error_at _ (step_error (loadBool_error _ _ _ _) hs) (fun s' hok => ?_)
  obtain ⟨b2, rfl⟩ := loadBool_ok_inv hok
  clear hok
  refine bind_error_at _ (step_error (loadBool_error _ _ _ _) hs) (fun s' hok => ?_)
  obtain ⟨b3, rfl⟩ := loadBool_ok_inv hok
  clear hok
  refine bind_error_at _ (step_error (loadBool_error _ _ _ _) hs) (fun s' hok => ?_)
  obtain ⟨b4, rfl⟩ := loadBool_ok_inv hok
  clear hok
  refine bind_error_at _ (step_error (loadBool_error _ _ _ _) hs) (fun s' hok => ?_)
  obtain ⟨b5, rfl⟩ := loadBool_ok_inv hok
  clear hok
  refine bind_error_at _ (step_error (loadBool_error _ _ _ _) hs) (fun s' hok => ?_)
  obtain ⟨b6, rfl⟩ := loadBool_ok_inv hok
  clear hok
  refine bind_error_at _ (step_error (loadBool_error _ _ _ _) hs) (fun s' hok => ?_)
  obtain ⟨b7, rfl⟩ := loadBool_ok_inv hok
  clear hok
  refine bind_error_at _ (step_error (loadBool_error _ _ _ _) hs) (fun s' hok => ?_)
  obtain ⟨b8, rfl⟩ := loadBool_ok_inv hok
  clear hok
  refine bind_error_at _ (step_error (loadBool_error _ _ _ _) hs) (fun s' hok => ?_)
  obtain ⟨b9, rfl⟩ := loadBool_ok_inv hok
  clear hok
  refine bind_error_at _ (step_error (loadInt_error _ _ _ _) hs) (fun s' hok => ?_)
  obtain ⟨n10, rfl⟩ := loadInt_ok_inv hok
  clear hok
  refine bind_error_at _ (step_error (loadInt_error _ _ _ _) hs) (fun s' hok => ?_)
  obtain ⟨n11, rfl⟩ := loadInt_ok_inv hok
  clear hok
  refine bind_error_at _ (step_error (loadColor_error _ _ _ _) hs) (fun s' hok => ?_)
  obtain ⟨v12, rfl⟩ := loadColor_ok_inv hok
  clear hok
  refine bind_error_at _ (step_error (loadColor_error _ _ _ _) hs) (fun s' hok => ?_)
  obtain ⟨v13, rfl⟩ := loadColor_ok_inv hok
  clear hok
  refine bind_error_at _ (step_error (loadColor_error _ _ _ _) hs) (fun s' hok => ?_)
  obtain ⟨v14, rfl⟩ := loadColor_ok_inv hok
  clear hok
  refine bind_error_at _ (step_error (loadColor_error _ _ _ _) hs) (fun s' hok => ?_)
  obtain ⟨v15, rfl⟩ := loadColor_ok_inv hok
  clear hok
  refine bind_error_at _ (step_error (atState_error_ne _ _
    (bind_error_of _ (getKey_error_ne _ _) (fun j => toInt_error_ne j))) hs) (fun skip _ => ?_)
  refine bind_error_at _ (step_error (atState_error_ne _ _
    (bind_error_of _ (getKey_error_ne _ _) (fun j => toInt_error_ne j))) hs) (fun interval _ => ?_)
  intro err h
  cases h

/-- A successful `AppSettings::init` returns settings that hold the backend selected by its
first statement. -/
theorem init_ok_detectionBackend (s₀ s1 s : AppSettings) (settings b : Json)
    (hb : settings.getKey "detectionBackend" = .ok b)
    (hsel : selectBackend s₀ b = .ok s1)
    (hinit : s₀.init settings = .ok s) :
    s.detectionBackend = s1.detectionBackend := by
  unfold AppSettings.init at hinit
  rw [hb] at hinit
  obtain ⟨b', hb', hinit⟩ := bind_ok_inv hinit
  cases hb'
  obtain ⟨s1', h1, hinit⟩ := bind_ok_inv hinit
  rw [hsel] at h1
  cases h1
  obtain ⟨focus, -, hinit⟩ := bind_ok_inv hinit
  obtain ⟨ignore, -, hinit⟩ := bind_ok_inv hinit
  obtain ⟨s2, h2, hinit⟩ := bind_ok_inv hinit
  have hs : s2.detectionBackend = s1.detectionBackend := by
    cases h2
    split
    · exact setFocusMask_detectionBackend _ _ _
    · rfl
  clear h2
  obtain ⟨t0, h0, hinit⟩ := bind_ok_inv hinit
  obtain ⟨b0, rfl⟩ := loadBool_ok_inv h0
  obtain ⟨t1, h1, hinit⟩ := bind_ok_inv hinit
  obtain ⟨b1, rfl⟩ := loadBool_ok_inv h1
  obtain ⟨t2, h2, hinit⟩ := bind_ok_inv hinit
  obtain ⟨b2, rfl⟩ := loadBool_ok_inv h2
  obtain ⟨t3, h3, hinit⟩ := bind_ok_inv hinit
  obtain ⟨b3, rfl⟩ := loadBool_ok_inv h3
  obtain ⟨t4, h4, hinit⟩ := bind_ok_inv hinit
  obtain ⟨b4, rfl⟩ := loadBool_ok_inv h4
  obtain ⟨t5, h5, hinit⟩ := bind_ok_inv hinit
  obtain ⟨b5, rfl⟩ := loadBool_ok_inv h5
  obtain ⟨t6, h6, hinit⟩ := bind_ok_inv hinit
  obtain ⟨b6, rfl⟩ := loadBool_ok_inv h6
  obtain ⟨t7, h7, hinit⟩ := bind_ok_inv hinit
  obtain ⟨b7, rfl⟩ := loadBool_ok_inv h7
  obtain ⟨t8, h8, hinit⟩ := bind_ok_inv hinit
  obtain ⟨b8, rfl⟩ := loadBool_ok_inv h8
  obtain ⟨t9, h9, hinit⟩ := bind_ok_inv hinit
  obtain ⟨b9, rfl⟩ := loadBool_ok_inv h9
  obtain ⟨t10, h10, hinit⟩ := bind_ok_inv hinit
  obtain ⟨n10, rfl⟩ := loadInt_ok_inv h10
  obtain ⟨t11, h11, hinit⟩ := bind_ok_inv hinit
  obtain ⟨n11, rfl⟩ := loadInt_ok_inv h11
  obtain ⟨t12, h12, hinit⟩ := bind_ok_inv hinit
  obtain ⟨v12, rfl⟩ := loadColor_ok_inv h12
  obtain ⟨t13, h13, hinit⟩ := bind_ok_inv hinit
  obtain ⟨v13, rfl⟩ := loadColor_ok_inv h13
  obtain ⟨t14, h14, hinit⟩ := bind_ok_inv hinit
  obtain ⟨v14, rfl⟩ := loadColor_ok_inv h14
  obtain ⟨t15, h15, hinit⟩ := bind_ok_inv hinit
  obtain ⟨v15, rfl⟩ := loadColor_ok_inv h15
  obtain ⟨skip, -, hinit⟩ := bind_ok_inv hinit
  obtain ⟨interval, -, hinit⟩ := bind_ok_inv hinit
  cases hinit
  exact hs

theorem isString_eq_true (b : Json) (text : String) :
    b.isString text = true ↔ b = Json.str text := by
  cases b <;> simp [Json.isString]

theorem selectBackend_invalid (s₀ : AppSettings) (b : Json)
    (hDB : b ≠ Json.str "DB") (hEAST : b ≠ Json.str "EAST") :
    selectBackend s₀ b = .error ("Invalid Backend", s₀) := by
  have h1 : ¬ b.isString "DB" = true := fun h => hDB ((isString_eq_true b "DB").mp h)
  have h2 : ¬ b.isString "EAST" = true := fun h => hEAST ((isString_eq_true b "EAST").mp h)
  unfold selectBackend
  rw [if_neg h1, if_neg h2]

theorem init_invalid_backend (s₀ : AppSettings) (settings b : Json)
    (hb : settings.getKey "detectionBackend" = .ok b)
    (hDB : b ≠ Json.str "DB") (hEAST : b ≠ Json.str "EAST") :
    s₀.init settings = .error ("Invalid Backend", s₀) := by
  unfold AppSettings.init
  rw [hb]
  show (selectBackend s₀ b >>= _) = _
  rw [selectBackend_invalid s₀ b hDB hEAST]
  rfl

/-- C11: for a configuration whose `detectionBackend` value is `b`, `AppSettings::init`
throws `Invalid Backend` exactly when `b` is neither the string "DB" nor the string "EAST"
(and then with the settings untouched); for "DB" the settings it returns, or leaves behind
when a later statement fails, hold the DB backend, and for "EAST" the EAST backend. -/
theorem init_backend_name (s₀ : AppSettings) (settings b : Json)
    (hb : settings.getKey "detectionBackend" = .ok b) :
    ((∃ st, s₀.init settings = .error ("Invalid Backend", st)) ↔
        (b ≠ Json.str "DB" ∧ b ≠ Json.str "EAST")) ∧
      (b ≠ Json.str "DB" → b ≠ Json.str "EAST" →
        s₀.init settings = .error ("Invalid Backend", s₀)) ∧
      (b = Json.str "DB" → ∀ s,
        (s₀.init settings = .ok s ∨ ∃ e, s₀.init settings = .error (e, s)) →
        s.detectionBackend = DetectionBackend.DB) ∧
      (b = Json.str "EAST" → ∀ s,
        (s₀.init settings = .ok s ∨ ∃ e, s₀.init settings = .error (e, s)) →
        s.detectionBackend = DetectionBackend.EAST) := by
  have hselDB : b = Json.str "DB" →
      selectBackend s₀ b = .ok { s₀ with detectionBackend := DetectionBackend.DB } := by
    intro h
    subst h
    rfl
  have hselEAST : b = Json.str "EAST" →
      selectBackend s₀ b = .ok { s₀ with detectionBackend := DetectionBackend.EAST } := by
    intro h
    subst h
    rfl
  refine ⟨⟨?_, fun h => ⟨s₀, init_invalid_backend s₀ settings b hb h.1 h.2⟩⟩,
    init_invalid_backend s₀ settings b hb, ?_, ?_⟩
  · rintro ⟨st, hst⟩
    constructor
    · intro h
      exact (init_error_after_backend s₀ _ settings b hb (hselDB h) _ hst).1 rfl
    · intro h
      exact (init_error_after_backend s₀ _ settings b hb (hselEAST h) _ hst).1 rfl
  · intro h s hs
    rcases hs with hs | ⟨e, hs⟩
    · exact init_ok_detectionBackend s₀ _ s settings b hb (hselDB h) hs
    · exact (init_error_after_backend s₀ _ settings b hb (hselDB h) _ hs).2
  · intro h s hs
    rcases hs with hs | ⟨e, hs⟩
    · exact init_ok_detectionBackend s₀ _ s settings b hb (hselEAST h) hs
    · exact (init_error_after_backend s₀ _ settings b hb (hselEAST h) _ hs).2

/-- Witness of `init_backend_name`: a configuration whose backend name is "CRAFT". -/
theorem init_backend_name_witness :
    ((∃ st, (sampleSettings [] []).init (Json.obj [("detectionBackend", Json.str "CRAFT")]) =
          .error ("Invalid Backend", st)) ↔
        (Json.str "CRAFT" ≠ Json.str "DB" ∧ Json.str "CRAFT" ≠ Json.str "EAST")) ∧
      (Json.str "CRAFT" ≠ Json.str "DB" → Json.str "CRAFT" ≠ Json.str "EAST" →
        (sampleSettings [] []).init (Json.obj [("detectionBackend", Json.str "CRAFT")]) =
          .error ("Invalid Backend", sampleSettings [] [])) ∧
      (Json.str "CRAFT" = Json.str "DB" → ∀ s,
        ((sampleSettings [] []).init (Json.obj [("detectionBackend", Json.str "CRAFT")]) =
            .ok s ∨
          ∃ e, (sampleSettings [] []).init (Json.obj [("detectionBackend", Json.str "CRAFT")]) =
            .error (e, s)) →
        s.detectionBackend = DetectionBackend.DB) ∧
      (Json.str "CRAFT" = Json.str "EAST" → ∀ s,
        ((sampleSettings [] []).init (Json.obj [("detectionBackend", Json.str "CRAFT")]) =
            .ok s ∨
          ∃ e, (sampleSettings [] []).init (Json.obj [("detectionBackend", Json.str "CRAFT")]) =
            .error (e, s)) →
        s.detectionBackend = DetectionBackend.EAST) :=
  init_backend_name (sampleSettings [] []) (Json.obj [("detectionBackend", Json.str "CRAFT")])
    (Json.str "CRAFT") rfl

/-! ## Configuration: what a failed initialisation leaves behind -/

theorem failingAt_error {σ α : Type} (s : σ) (x : Except String α) :
    ∀ err : String × σ, failingAt s x = .error err → err.2 = s := by
  intro err h
  cases x with
  | ok a => cases h
  | error e => cases h; rfl

theorem failingAt_ok {σ α : Type} (s : σ) (x : Except String α) (a : α)
    (h : failingAt s x = .ok a) : x = .ok a := by
  cases x with
  | ok a' => cases h; rfl
  | error e => cases h

theorem failingAt_of_error {σ α : Type} (s : σ) (x : Except String α) (e : String)
    (h : x = .error e) : (failingAt s x : Except (String × σ) α) = .error (e, s) := by
  subst h
  rfl

theorem nestedAt_error {σ τ : Type} (wrap : τ → σ) (x : Except (String × τ) τ) :
    ∀ err : String × σ, nestedAt wrap x = .error err → ∃ t, err.2 = wrap t := by
  intro err h
  cases x with
  | ok t => cases h
  | error e => obtain ⟨m, t⟩ := e; cases h; exact ⟨t, rfl⟩

theorem nestedAt_ok {σ τ : Type} (wrap : τ → σ) (x : Except (String × τ) τ) (s : σ)
    (h : nestedAt wrap x = .ok s) : ∃ t, s = wrap t := by
  cases x with
  | ok t => cases h; exact ⟨t, rfl⟩
  | error e => obtain ⟨m, t⟩ := e; cases h

/-- Once `confidence` is read (value `conf`), a failure of `TextDetectionParams::init` leaves
the object with `confThreshold` already assigned. -/
theorem paramsInit_error_after_confidence (p₀ : TextDetectionParams) (textDetection merge : Json)
    (d conf : ℚ)
    (hm : textDetection.getKey "mergeThreshold" = .ok merge)
    (hd : (textDetection.getKey "rotationThresholdDegrees" >>= Json.toFloat) = .ok d)
    (hc : (textDetection.getKey "confidence" >>= Json.toFloat) = .ok conf) :
    ∀ err : String × TextDetectionParams, p₀.init textDetection = .error err →
      err.2.confThreshold = conf := by
  unfold TextDetectionParams.init
  rw [hm, hd, hc]
  show ∀ err, (failingAt _ (merge.getKey "x" >>= Json.toFloat) >>= _) = .error err → _
  refine bind_error_at _ (fun err h => by rw [failingAt_error _ _ err h]) (fun x _ => ?_)
  refine bind_error_at _ (fun err h => by rw [failingAt_error _ _ err h]) (fun y _ => ?_)
  refine bind_error_at _ (fun err h => by rw [failingAt_error _ _ err h]) (fun backend _ => ?_)
  refine bind_error_at _ (fun err h => by rw [failingAt_error _ _ err h]) (fun target _ => ?_)
  refine bind_error_at _ (fun err h => by rw [failingAt_error _ _ err h]) (fun east _ => ?_)
  refine bind_error_at _
    (fun err h => by obtain ⟨t, ht⟩ := nestedAt_error _ _ err h; rw [ht])
    (fun p hok => ?_)
  obtain ⟨t, rfl⟩ := nestedAt_ok _ _ _ hok
  clear hok
  refine bind_error_at _ (fun err h => by rw [failingAt_error _ _ err h]) (fun db _ => ?_)
  intro err h
  obtain ⟨t', ht'⟩ := nestedAt_error _ _ err h
  rw [ht']

/-- When one of the first three reads of `TextDetectionParams::init` fails, the exception
leaves the object untouched. -/
theorem paramsInit_error_early (p₀ : TextDetectionParams) (textDetection : Json)
    (h : (∃ e, textDetection.getKey "mergeThreshold" = .error e) ∨
      (∃ e, (textDetection.getKey "rotationThresholdDegrees" >>= Json.toFloat) = .error e) ∨
      (∃ e, (textDetection.getKey "confidence" >>= Json.toFloat) = .error e)) :
    ∀ err : String × TextDetectionParams, p₀.init textDetection = .error err →
      err.2 = p₀ := by
  unfold TextDetectionParams.init
  refine bind_error_at _ (failingAt_error _ _) (fun merge hm => ?_)
  refine bind_error_at _ (failingAt_error _ _) (fun d hd => ?_)
  refine bind_error_at _ (failingAt_error _ _) (fun conf hc => ?_)
  have hm' := failingAt_ok _ _ _ hm
  have hd' := failingAt_ok _ _ _ hd
  have hc' := failingAt_ok _ _ _ hc
  exfalso
  rcases h with ⟨e, he⟩ | ⟨e, he⟩ | ⟨e, he⟩
  · rw [hm'] at he; cases he
  · rw [hd'] at he; cases he
  · rw [hc'] at he; cases he

/-- C12 (as stated, refuted): a configuration with the valid backend name "EAST" and no
`saveLuminanceMap` value makes `AppSettings::init` fail after the backend has been changed
from DB to EAST, and a detection configuration without `mergeThreshold` makes
`TextDetectionParams::init` fail after `confThreshold` has been changed from 0.5 to 0.25. -/
theorem init_failure_partially_applied :
    (∃ e st, (sampleSettings [] []).init (Json.obj [("detectionBackend", Json.str "EAST")]) =
        .error (e, st) ∧
      st.detectionBackend = DetectionBackend.EAST ∧
      (sampleSettings [] []).detectionBackend = DetectionBackend.DB) ∧
    (∃ e pt, TextDetectionParams.new.init
        (Json.obj [("confidence", Json.num (1/4)), ("rotationThresholdDegrees", Json.num 10)]) =
        .error (e, pt) ∧
      pt.confThreshold = 1/4 ∧ TextDetectionParams.new.confThreshold ≠ 1/4) := by
  refine ⟨⟨_, _, rfl, rfl, rfl⟩, ⟨_, _, rfl, rfl, ?_⟩⟩
  norm_num [TextDetectionParams.new]

/-- C12 (amended): a failure of `AppSettings::init` on an invalid backend name, and a failure
of `TextDetectionParams::init` on one of its first three reads (`mergeThreshold`,
`rotationThresholdDegrees`, `confidence`), leave every field as it was before the call. A
failure at a later statement is partially applied: the settings keep the backend selected
from a valid backend name, and the detection parameters keep the confidence that was read. -/
theorem init_failure_state (s₀ : AppSettings) (settings b : Json)
    (serr : String × AppSettings) (p₀ : TextDetectionParams) (textDetection : Json)
    (perr : String × TextDetectionParams)
    (hb : settings.getKey "detectionBackend" = .ok b)
    (hs : s₀.init settings = .error serr)
    (hp : p₀.init textDetection = .error perr) :
    (b ≠ Json.str "DB" → b ≠ Json.str "EAST" → serr.2 = s₀) ∧
      (b = Json.str "DB" → serr.2.detectionBackend = DetectionBackend.DB) ∧
      (b = Json.str "EAST" → serr.2.detectionBackend = DetectionBackend.EAST) ∧
      (((∃ e, textDetection.getKey "mergeThreshold" = .error e) ∨
          (∃ e, (textDetection.getKey "rotationThresholdDegrees" >>= Json.toFloat) =
            .error e) ∨
          (∃ e, (textDetection.getKey "confidence" >>= Json.toFloat) = .error e)) →
        perr.2 = p₀) ∧
      (∀ merge d conf, textDetection.getKey "mergeThreshold" = .ok merge →
        (textDetection.getKey "rotationThresholdDegrees" >>= Json.toFloat) = .ok d →
        (textDetection.getKey "confidence" >>= Json.toFloat) = .ok conf →
        perr.2.confThreshold = conf) := by
  refine ⟨?_, ?_, ?_, fun h => paramsInit_error_early p₀ textDetection h perr hp,
    fun merge d conf hm hd hc =>
      paramsInit_error_after_confidence p₀ textDetection merge d conf hm hd hc perr hp⟩
  · intro h1 h2
    rw [init_invalid_backend s₀ settings b hb h1 h2] at hs
    cases hs
    rfl
  · intro h
    subst h
    exact (init_error_after_backend s₀ { s₀ with detectionBackend := DetectionBackend.DB }
      settings _ hb rfl serr hs).2
  · intro h
    subst h
    exact (init_error_after_backend s₀ { s₀ with detectionBackend := DetectionBackend.EAST }
      settings _ hb rfl serr hs).2

/-- Witness of `init_failure_state`: the two failing configurations of
`init_failure_partially_applied`. -/
theorem init_failure_state_witness :
    (Json.str "EAST" ≠ Json.str "DB" → Json.str "EAST" ≠ Json.str "EAST" →
        { sampleSettings [] [] with detectionBackend := DetectionBackend.EAST } =
          sampleSettings [] []) ∧
      (Json.str "EAST" = Json.str "DB" →
        ({ sampleSettings [] [] with detectionBackend := DetectionBackend.EAST } :
          AppSettings).detectionBackend = DetectionBackend.DB) ∧
      (Json.str "EAST" = Json.str "EAST" →
        ({ sampleSettings [] [] with detectionBackend := DetectionBackend.EAST } :
          AppSettings).detectionBackend = DetectionBackend.EAST) ∧
      (((∃ e, (Json.obj [("confidence", Json.num (1/4)),
              ("rotationThresholdDegrees", Json.num 10)]).getKey "mergeThreshold" =
            .error e) ∨
          (∃ e, ((Json.obj [("confidence", Json.num (1/4)),
              ("rotationThresholdDegrees", Json.num 10)]).getKey "rotationThresholdDegrees"
            >>= Json.toFloat) = .error e) ∨
          (∃ e, ((Json.obj [("confidence", Json.num (1/4)),
              ("rotationThresholdDegrees", Json.num 10)]).getKey "confidence"
            >>= Json.toFloat) = .error e)) →
        ({ TextDetectionParams.new with confThreshold := 1/4 } : TextDetectionParams) =
          TextDetectionParams.new) ∧
      (∀ merge d conf,
        (Json.obj [("confidence", Json.num (1/4)),
            ("rotationThresholdDegrees", Json.num 10)]).getKey "mergeThreshold" = .ok merge →
        ((Json.obj [("confidence", Json.num (1/4)),
            ("rotationThresholdDegrees", Json.num 10)]).getKey "rotationThresholdDegrees"
          >>= Json.toFloat) = .ok d →
        ((Json.obj [("confidence", Json.num (1/4)),
            ("rotationThresholdDegrees", Json.num 10)]).getKey "confidence"
          >>= Json.toFloat) = .ok conf →
        ({ TextDetectionParams.new with confThreshold := 1/4 } :
          TextDetectionParams).confThreshold = conf) :=
  init_failure_state (sampleSettings [] []) (Json.obj [("detectionBackend", Json.str "EAST")])
    (Json.str "EAST")
    ("type_error: type must be boolean",
      { sampleSettings [] [] with detectionBackend := DetectionBackend.EAST })
    TextDetectionParams.new
    (Json.obj [("confidence", Json.num (1/4)), ("rotationThresholdDegrees", Json.num 10)])
    ("type_error: type must be number",
      { TextDetectionParams.new with confThreshold := 1/4 })
    rfl rfl rfl

/-! ## The frame pipeline: results of a frame -/

theorem mergeTextBoxes_calls {Textbox FR : Type} (f : Fonttik Textbox FR)
    (textBoxes : List Textbox) :
    ∀ c ∈ (f.mergeTextBoxes textBoxes).2, c = Call.mergeTextBoxes := by
  intro c hc
  by_cases h : f.textDetectionParams.getMergeThreshold.1 < 1 ∨
      f.textDetectionParams.getMergeThreshold.2 < 1
  · rw [mergeTextBoxes_invoked f textBoxes h] at hc
    simpa using hc
  · have h' : ¬ (f.textDetectionParams.getMergeThreshold.1 < 1.0 ∨
        f.textDetectionParams.getMergeThreshold.2 < 1.0) := by
      norm_num
      push_neg at h
      exact h
    unfold Fonttik.mergeTextBoxes at hc
    simp only [if_neg h'] at hc
    simp at hc

theorem processFrame_of_boxes {Textbox FR : Type} (f : Fonttik Textbox FR)
    (frame masked : Frame) (boxes : List Textbox)
    (hmask : f.applyFocusMask frame = .ok masked)
    (hdet : f.detectBoxes masked.image = .ok boxes)
    (hne : (f.mergeTextBoxes boxes).1 ≠ []) :
    f.processFrame frame =
      .ok ((f.sizeCheck masked (f.mergeTextBoxes boxes).1,
            f.contrastCheck masked (f.mergeTextBoxes boxes).1),
        [Call.detectBoxes] ++ (f.mergeTextBoxes boxes).2 ++ [Call.sizeCheck] ++
          [Call.contrastCheck]) := by
  unfold Fonttik.processFrame
  rw [hmask]
  show (f.getTextBoxes masked >>= _) = _
  unfold Fonttik.getTextBoxes
  rw [hdet]
  show (if (f.mergeTextBoxes boxes).1.isEmpty = true then _ else _) = _
  have hfalse : ¬ (f.mergeTextBoxes boxes).1.isEmpty = true := by
    rw [List.isEmpty_iff]
    exact hne
  rw [if_neg hfalse]
  rfl

/-- C13: for a frame on which masking and detection succeed, if the box list after merging
is empty, `processFrame` returns `FrameResults(-1)` for both size and contrast and calls
neither checker; otherwise it returns exactly the pair of the size checker's and the
contrast checker's results for the (masked) frame and the merged box list. -/
theorem processFrame_results {Textbox FR : Type} (f : Fonttik Textbox FR)
    (frame masked : Frame) (boxes : List Textbox)
    (hmask : f.applyFocusMask frame = .ok masked)
    (hdet : f.detectBoxes masked.image = .ok boxes) :
    ((f.mergeTextBoxes boxes).1 = [] →
        ∃ calls, f.processFrame frame =
            .ok ((f.frameResults (-1), f.frameResults (-1)), calls) ∧
          Call.sizeCheck ∉ calls ∧ Call.contrastCheck ∉ calls) ∧
      ((f.mergeTextBoxes boxes).1 ≠ [] →
        ∃ calls, f.processFrame frame =
            .ok ((f.sizeCheck masked (f.mergeTextBoxes boxes).1,
                  f.contrastCheck masked (f.mergeTextBoxes boxes).1), calls) ∧
          calls.count Call.sizeCheck = 1 ∧ calls.count Call.contrastCheck = 1) := by
  have hcalls := mergeTextBoxes_calls f boxes
  constructor
  · intro hempty
    refine ⟨_, processFrame_of_no_boxes f frame masked boxes hmask hdet hempty, ?_, ?_⟩
    · intro hmem
      rcases List.mem_append.mp hmem with h | h
      · simp at h
      · exact absurd (hcalls _ h) (by decide)
    · intro hmem
      rcases List.mem_append.mp hmem with h | h
      · simp at h
      · exact absurd (hcalls _ h) (by decide)
  · intro hne
    refine ⟨_, processFrame_of_boxes f frame masked boxes hmask hdet hne, ?_, ?_⟩
    · have h0 : (f.mergeTextBoxes boxes).2.count Call.sizeCheck = 0 :=
        List.count_eq_zero.mpr (fun h => absurd (hcalls _ h) (by decide))
      simp [List.count_append, h0]
    · have h0 : (f.mergeTextBoxes boxes).2.count Call.contrastCheck = 0 :=
        List.count_eq_zero.mpr (fun h => absurd (hcalls _ h) (by decide))
      simp [List.count_append, h0]

/-- Witness of `processFrame_results`: a detector that reports the two boxes 7 and 8 on a
black frame, with merging switched off. -/
theorem processFrame_results_witness :
    ∃ masked : Frame,
      (((sampleFonttik (fun _ => .ok [7, 8]) (1, 1)).mergeTextBoxes [7, 8]).1 = [] →
        ∃ calls, (sampleFonttik (fun _ => .ok [7, 8]) (1, 1)).processFrame blackFrame =
            .ok (((sampleFonttik (fun _ => .ok [7, 8]) (1, 1)).frameResults (-1),
                  (sampleFonttik (fun _ => .ok [7, 8]) (1, 1)).frameResults (-1)), calls) ∧
          Call.sizeCheck ∉ calls ∧ Call.contrastCheck ∉ calls) ∧
      (((sampleFonttik (fun _ => .ok [7, 8]) (1, 1)).mergeTextBoxes [7, 8]).1 ≠ [] →
        ∃ calls, (sampleFonttik (fun _ => .ok [7, 8]) (1, 1)).processFrame blackFrame =
            .ok (((sampleFonttik (fun _ => .ok [7, 8]) (1, 1)).sizeCheck masked
                    ((sampleFonttik (fun _ => .ok [7, 8]) (1, 1)).mergeTextBoxes [7, 8]).1,
                  (sampleFonttik (fun _ => .ok [7, 8]) (1, 1)).contrastCheck masked
                    ((sampleFonttik (fun _ => .ok [7, 8]) (1, 1)).mergeTextBoxes [7, 8]).1),
              calls) ∧
          calls.count Call.sizeCheck = 1 ∧ calls.count Call.contrastCheck = 1) := by
  obtain ⟨masked, hmask, -⟩ :=
    sampleFonttik_applyFocusMask (fun _ => .ok [7, 8]) (1, 1) ⟨0, 0, 0⟩
  exact ⟨masked, processFrame_results (sampleFonttik (fun _ => .ok [7, 8]) (1, 1)) blackFrame
    masked [7, 8] hmask rfl⟩

/-! ## Luminance: the direct path -/

theorem linearize8bitRGB_range (c : uchar) :
    0 ≤ linearize8bitRGB Real.rpow c ∧ linearize8bitRGB Real.rpow c ≤ 1 := by
  have hc0 : (0 : ℝ) ≤ ((c.val : ℕ) : ℝ) := Nat.cast_nonneg _
  have hc255 : ((c.val : ℕ) : ℝ) ≤ 255 := by
    have : c.val ≤ 255 := Nat.le_of_lt_succ c.isLt
    exact_mod_cast this
  have hcolor0 : (0 : ℝ) ≤ ((c.val : ℕ) : ℝ) / 255.0 := by positivity
  have hcolor1 : ((c.val : ℕ) : ℝ) / 255.0 ≤ 1 := by
    have h255 : (255.0 : ℝ) = 255 := by norm_num
    rw [h255, div_le_one (by norm_num)]
    exact hc255
  unfold linearize8bitRGB
  by_cases hbranch : ((c.val : ℕ) : ℝ) / 255.0 ≤ 0.04045
  · simp only [if_pos hbranch]
    constructor
    · positivity
    · rw [div_le_one (by norm_num)]
      have : (0.04045 : ℝ) ≤ 12.92 := by norm_num
      linarith
  · simp only [if_neg hbranch]
    have hbase0 : (0 : ℝ) ≤ (((c.val : ℕ) : ℝ) / 255.0 + 0.055) / 1.1055 := by positivity
    have hbase1 : (((c.val : ℕ) : ℝ) / 255.0 + 0.055) / 1.1055 ≤ 1 := by
      rw [div_le_one (by norm_num)]
      have : (1 : ℝ) + 0.055 ≤ 1.1055 := by norm_num
      linarith
    exact ⟨Real.rpow_nonneg hbase0 _, Real.rpow_le_one hbase0 hbase1 (by norm_num)⟩

/-- C14: on the direct path, the luminance map of a non-empty image has the dimensions of the
image, and each of its values is `0.0722*lin(B) + 0.7152*lin(G) + 0.2126*lin(R)` of the
corresponding pixel (channels 0, 1, 2 being B, G, R and `lin` being `linearize8bitRGB`) and
lies in `[0, 1]`. -/
theorem calculateLuminance_direct_values (img : Mat Vec3b) (hne : img.empty = false) :
    ∃ L : Mat ℝ, calculateLuminance Real.rpow none img = .ok L ∧
      L.rows = img.rows ∧ L.cols = img.cols ∧
      ∀ r c, r < img.rows → c < img.cols →
        L.px r c = 0.0722 * linearize8bitRGB Real.rpow (img.px r c).c0 +
            0.7152 * linearize8bitRGB Real.rpow (img.px r c).c1 +
            0.2126 * linearize8bitRGB Real.rpow (img.px r c).c2 ∧
          0 ≤ L.px r c ∧ L.px r c ≤ 1 := by
  refine ⟨_, calculateLuminance_direct Real.rpow img hne, rfl, rfl, ?_⟩
  intro r c _ _
  obtain ⟨hb0, hb1⟩ := linearize8bitRGB_range (img.px r c).c0
  obtain ⟨hg0, hg1⟩ := linearize8bitRGB_range (img.px r c).c1
  obtain ⟨hr0, hr1⟩ := linearize8bitRGB_range (img.px r c).c2
  refine ⟨rfl, ?_, ?_⟩
  · show 0 ≤ 0.0722 * linearize8bitRGB Real.rpow (img.px r c).c0 +
        0.7152 * linearize8bitRGB Real.rpow (img.px r c).c1 +
        0.2126 * linearize8bitRGB Real.rpow (img.px r c).c2
    positivity
  · show 0.0722 * linearize8bitRGB Real.rpow (img.px r c).c0 +
        0.7152 * linearize8bitRGB Real.rpow (img.px r c).c1 +
        0.2126 * linearize8bitRGB Real.rpow (img.px r c).c2 ≤ 1
    linarith

/-- Witness of `calculateLuminance_direct_values`: an image of one grey and one white
pixel. -/
theorem calculateLuminance_direct_values_witness :
    ∃ L : Mat ℝ,
      calculateLuminance Real.rpow none (rowImage [⟨128, 128, 128⟩, ⟨255, 255, 255⟩]) =
        .ok L ∧
      L.rows = (rowImage [⟨128, 128, 128⟩, ⟨255, 255, 255⟩]).rows ∧
      L.cols = (rowImage [⟨128, 128, 128⟩, ⟨255, 255, 255⟩]).cols ∧
      ∀ r c, r < (rowImage [⟨128, 128, 128⟩, ⟨255, 255, 255⟩]).rows →
        c < (rowImage [⟨128, 128, 128⟩, ⟨255, 255, 255⟩]).cols →
        L.px r c =
            0.0722 * linearize8bitRGB Real.rpow
                ((rowImage [⟨128, 128, 128⟩, ⟨255, 255, 255⟩]).px r c).c0 +
              0.7152 * linearize8bitRGB Real.rpow
                ((rowImage [⟨128, 128, 128⟩, ⟨255, 255, 255⟩]).px r c).c1 +
              0.2126 * linearize8bitRGB Real.rpow
                ((rowImage [⟨128, 128, 128⟩, ⟨255, 255, 255⟩]).px r c).c2 ∧
          0 ≤ L.px r c ∧ L.px r c ≤ 1 :=
  calculateLuminance_direct_values (rowImage [⟨128, 128, 128⟩, ⟨255, 255, 255⟩]) rfl

/-! ## Configuration: colours and accelerator preferences -/

theorem truncToInt_intCast (n : Int) : truncToInt (n : ℚ) = n := by
  unfold truncToInt
  split <;> simp

theorem colorComponent_numeric (qs : List ℚ) (i : Nat) :
    colorComponent (Json.arr (qs.map Json.num)) i =
      .ok (if i < qs.length then ((truncToInt (qs.getD i 0) : Int) : ℚ) else 1) := by
  unfold colorComponent
  by_cases h : i < qs.length
  · have hsize : i < (Json.arr (qs.map Json.num)).size := by
      simpa [Json.size] using h
    have hget : (qs.map Json.num).getD i Json.null = Json.num (qs.getD i 0) := by
      simp [List.getD_eq_getElem?_getD, List.getElem?_map, List.getElem?_eq_getElem h]
    rw [if_pos hsize, if_pos h]
    simp only [Json.getIdx, hget]
    rfl
  · have hsize : ¬ i < (Json.arr (qs.map Json.num)).size := by
      simpa [Json.size] using h
    rw [if_neg hsize, if_neg h]
    rfl

/-- C15 (as stated, refuted): for the numeric array `[2.5, 7, 9]` the stored colour is
`(9, 7, 2, 1)`, not `(9, 7, 2.5, 1)`: the components are converted to `int`. -/
theorem ColorFromJson_truncates :
    ColorFromJson (Json.arr [Json.num (5/2), Json.num 7, Json.num 9]) =
        .ok ⟨9, 7, 2, 1⟩ ∧
      (⟨9, 7, 2, 1⟩ : Scalar) ≠ ⟨9, 7, 5/2, 1⟩ := by
  constructor
  · have h := fun i => colorComponent_numeric [5/2, 7, 9] i
    simp only [List.map] at h
    unfold ColorFromJson
    rw [h 0, h 1, h 2, h 3]
    show Except.ok _ = Except.ok _
    norm_num [truncToInt]
  · intro h
    have := congrArg Scalar.v2 h
    norm_num at this

/-- C15 (amended): for every numeric array of length `n`, `ColorFromJson` returns the
colour `(d2, d1, d0, d3)` where `d_i` is the `i`-th input component converted to `int`
(truncated toward zero) when `i < n` and 1 otherwise: components beyond the 4th are ignored,
missing components default to 1, and the 1st and 3rd components are stored swapped. -/
theorem ColorFromJson_numeric (qs : List ℚ) :
    ColorFromJson (Json.arr (qs.map Json.num)) =
      .ok ⟨if 2 < qs.length then ((truncToInt (qs.getD 2 0) : Int) : ℚ) else 1,
           if 1 < qs.length then ((truncToInt (qs.getD 1 0) : Int) : ℚ) else 1,
           if 0 < qs.length then ((truncToInt (qs.getD 0 0) : Int) : ℚ) else 1,
           if 3 < qs.length then ((truncToInt (qs.getD 3 0) : Int) : ℚ) else 1⟩ := by
  unfold ColorFromJson
  rw [colorComponent_numeric qs 0, colorComponent_numeric qs 1, colorComponent_numeric qs 2,
    colorComponent_numeric qs 3]
  show Except.ok _ = Except.ok _
  congr 2
  split
  · rw [truncToInt_intCast]
  · have : truncToInt (1 : ℚ) = 1 := by norm_num [truncToInt]
    rw [this]
    norm_num

/-- C16: `getBackendParam` and `getTargetParam` are total on strings: `getBackendParam`
returns CUDA exactly for "CUDA" and DEFAULT for every other string; `getTargetParam` returns
CUDA exactly for "CUDA", OPENCL exactly for "OPENCL" and CPU for every other string. -/
theorem preference_params (s : String) :
    (getBackendParam s = PreferredBackend.CUDA ↔ s = "CUDA") ∧
      (getBackendParam s = PreferredBackend.DEFAULT ↔ s ≠ "CUDA") ∧
      (getTargetParam s = PreferredTarget.CUDA ↔ s = "CUDA") ∧
      (getTargetParam s = PreferredTarget.OPENCL ↔ s = "OPENCL") ∧
      (getTargetParam s = PreferredTarget.CPU ↔ (s ≠ "CUDA" ∧ s ≠ "OPENCL")) := by
  unfold getBackendParam getTargetParam
  refine ⟨?_, ?_, ?_, ?_, ?_⟩
  · by_cases h : s = "CUDA" <;> simp [h]
  · by_cases h : s = "CUDA" <;> simp [h]
  · by_cases h : s = "CUDA"
    · simp [h]
    · by_cases h2 : s = "OPENCL" <;> simp [h, h2]
  · by_cases h : s = "CUDA"
    · subst h
      simp
    · by_cases h2 : s = "OPENCL" <;> simp [h, h2]
  · by_cases h : s = "CUDA"
    · simp [h]
    · by_cases h2 : s = "OPENCL" <;> simp [h, h2]

/-! ## Configuration: the rotation threshold -/

theorem CV_PI_near_pi : |((CV_PI : ℚ) : ℝ) - Real.pi| < 1 / 10 ^ 20 := by
  have h1 := Real.pi_gt_d20
  have h2 := Real.pi_lt_d20
  have hcast : ((CV_PI : ℚ) : ℝ) = 3.1415926535897932384626433832795 := by
    unfold CV_PI
    norm_num
  rw [hcast, abs_lt]
  constructor
  · norm_num at h1 h2 ⊢
    linarith
  · norm_num at h1 h2 ⊢
    linarith

/-- C17: after a successful `TextDetectionParams::init` on a configuration whose
`rotationThresholdDegrees` is `d`, `getRotationThresholdRadians()` returns
`d * (CV_PI / 180)`, where `CV_PI` is the library constant for π (within `10^-20` of π). -/
theorem paramsInit_rotation (p₀ p : TextDetectionParams) (textDetection : Json) (d : ℚ)
    (hd : (textDetection.getKey "rotationThresholdDegrees" >>= Json.toFloat) = .ok d)
    (hinit : p₀.init textDetection = .ok p) :
    p.getRotationThresholdRadians = d * (CV_PI / 180) ∧
      |((CV_PI : ℚ) : ℝ) - Real.pi| < 1 / 10 ^ 20 ∧
      |((p.getRotationThresholdRadians : ℚ) : ℝ) - (d : ℝ) * Real.pi / 180| ≤
        |(d : ℝ)| / 10 ^ 20 := by
  have hval : p.getRotationThresholdRadians = d * (CV_PI / 180) := by
    unfold TextDetectionParams.init at hinit
    obtain ⟨merge, -, hinit⟩ := bind_ok_inv hinit
    obtain ⟨d', hd', hinit⟩ := bind_ok_inv hinit
    have hdd := failingAt_ok _ _ _ hd'
    rw [hd] at hdd
    cases hdd
    obtain ⟨conf, -, hinit⟩ := bind_ok_inv hinit
    obtain ⟨x, -, hinit⟩ := bind_ok_inv hinit
    obtain ⟨y, -, hinit⟩ := bind_ok_inv hinit
    obtain ⟨backend, -, hinit⟩ := bind_ok_inv hinit
    obtain ⟨target, -, hinit⟩ := bind_ok_inv hinit
    obtain ⟨east, -, hinit⟩ := bind_ok_inv hinit
    obtain ⟨p1, hp1, hinit⟩ := bind_ok_inv hinit
    obtain ⟨t, rfl⟩ := nestedAt_ok _ _ _ hp1
    obtain ⟨db, -, hinit⟩ := bind_ok_inv hinit
    obtain ⟨t', rfl⟩ := nestedAt_ok _ _ _ hinit
    rfl
  refine ⟨hval, CV_PI_near_pi, ?_⟩
  have hdiff : ((p.getRotationThresholdRadians : ℚ) : ℝ) - (d : ℝ) * Real.pi / 180 =
      (d : ℝ) * (((CV_PI : ℚ) : ℝ) - Real.pi) / 180 := by
    rw [hval]
    push_cast
    ring
  rw [hdiff, abs_div, abs_mul]
  have hpi := CV_PI_near_pi
  have hd0 : 0 ≤ |(d : ℝ)| := abs_nonneg _
  have h180 : |(180 : ℝ)| = 180 := abs_of_pos (by norm_num)
  rw [h180, div_le_div_iff₀ (by norm_num) (by positivity)]
  have hstep : |(d : ℝ)| * |((CV_PI : ℚ) : ℝ) - Real.pi| ≤ |(d : ℝ)| * (1 / 10 ^ 20) :=
    mul_le_mul_of_nonneg_left (le_of_lt hpi) hd0
  have h2 : |(d : ℝ)| * (1 / 10 ^ 20) * 10 ^ 20 = |(d : ℝ)| := by
    field_simp
  nlinarith [hstep, h2, hd0]

/-- Witness of `paramsInit_rotation`: a complete detection configuration with a rotation
threshold of 10 degrees. -/
theorem paramsInit_rotation_witness :
    ∃ p : TextDetectionParams,
      TextDetectionParams.new.init (sampleDetectionConfig (Json.num 10) (Json.num (1/2))) =
        .ok p ∧
      p.getRotationThresholdRadians = 10 * (CV_PI / 180) ∧
      |((CV_PI : ℚ) : ℝ) - Real.pi| < 1 / 10 ^ 20 ∧
      |((p.getRotationThresholdRadians : ℚ) : ℝ) - ((10 : ℚ) : ℝ) * Real.pi / 180| ≤
        |((10 : ℚ) : ℝ)| / 10 ^ 20 := by
  have hex : ∃ p, TextDetectionParams.new.init
      (sampleDetectionConfig (Json.num 10) (Json.num (1/2))) = .ok p := ⟨_, rfl⟩
  obtain ⟨p, hp⟩ := hex
  exact ⟨p, hp, paramsInit_rotation TextDetectionParams.new p
    (sampleDetectionConfig (Json.num 10) (Json.num (1/2))) 10 rfl hp⟩

/-! ## Luminance: lookup table and direct path -/

/-- C18: with a 256-entry lookup table whose `i`-th entry is `linearize8bitRGB(i)`,
`calculateLuminance` returns on the lookup-table path the same luminance map as on the
direct per-pixel path, for every image. -/
theorem calculateLuminance_lut_eq_direct {K : Type} [LinearOrderedField K] (pow : K → K → K)
    (lut : List K) (img : Mat Vec3b)
    (hlen : lut.length = 256)
    (hentry : ∀ i : uchar, lut.getD i.val 0 = linearize8bitRGB pow i) :
    calculateLuminance pow (some lut) img = calculateLuminance pow none img := by
  have hnonempty : lut.isEmpty = false := by
    cases lut with
    | nil => simp at hlen
    | cons a l => rfl
  unfold calculateLuminance
  by_cases himg : img.empty = true
  · simp only [himg, Bool.not_true, Bool.false_eq_true, if_false]
  · have himg' : img.empty = false := by simpa using himg
    simp only [himg', Bool.not_false, if_true, hnonempty, LUT, hlen, hentry]
    rfl

theorem directLUT_length {K : Type} [LinearOrderedField K] (pow : K → K → K) :
    (directLUT pow).length = 256 := by
  unfold directLUT
  exact List.length_ofFn _

theorem directLUT_getD {K : Type} [LinearOrderedField K] (pow : K → K → K) (i : uchar) :
    (directLUT pow).getD i.val 0 = linearize8bitRGB pow i := by
  unfold directLUT
  rw [List.getD_eq_getElem?_getD, List.getElem?_ofFn]
  unfold List.ofFnNthVal
  rw [dif_pos i.isLt]
  rfl

/-- Witness of `calculateLuminance_lut_eq_direct`: rational values, the identity on the base
in place of `pow`, the table of direct linearizations and an image of two pixels. -/
theorem calculateLuminance_lut_eq_direct_witness :
    calculateLuminance (fun (x _ : ℚ) => x) (some (directLUT (fun (x _ : ℚ) => x)))
        (rowImage [⟨12, 200, 7⟩, ⟨255, 0, 90⟩]) =
      calculateLuminance (fun (x _ : ℚ) => x) none (rowImage [⟨12, 200, 7⟩, ⟨255, 0, 90⟩]) :=
  calculateLuminance_lut_eq_direct (fun (x _ : ℚ) => x) (directLUT (fun (x _ : ℚ) => x))
    (rowImage [⟨12, 200, 7⟩, ⟨255, 0, 90⟩])
    (directLUT_length _) (directLUT_getD _)

/-! ## Configuration: the diagnostic flags -/

/-- C19 (the code departs from the claim): from a configuration with `saveHistograms = h`,
`saveRawTextboxOutline = r` and `saveSeparateTexboxes = sp`, a successful `init` stores `h`
in the save-separate-textboxes flag, `r` in the save-histograms flag and `sp` in the
save-raw-textbox-outline flag: the three keys are read into each other's flags. -/
theorem init_diagnostic_flags_rotated (h r sp : Bool) :
    ∃ s : AppSettings,
      (sampleSettings [] []).init (sampleConfig (Json.arr []) (Json.arr []) h r sp) = .ok s ∧
      s.dbgSaveSeparateTextboxes = h ∧ s.dbgSaveHistograms = r ∧
      s.dbgSaveRawTextboxOutline = sp :=
  ⟨_, rfl, rfl, rfl, rfl⟩

/-! ## Luminance: the branch boundary -/

/-- C20 (the code departs from the claim): `linearize8bitRGB` is not monotone across the
branch boundary: the value at 11 is strictly smaller than the value at 10. -/
theorem linearize8bitRGB_not_monotone :
    linearize8bitRGB Real.rpow (11 : uchar) < linearize8bitRGB Real.rpow (10 : uchar) := by
  have h10 : ((10 : uchar).val : ℕ) = 10 := rfl
  have h11 : ((11 : uchar).val : ℕ) = 11 := rfl
  have e10 : linearize8bitRGB Real.rpow (10 : uchar) = (10 : ℝ) / 255 / 12.92 := by
    unfold linearize8bitRGB
    simp only [h10]
    rw [if_pos (by norm_num)]
    norm_num
  have e11 : linearize8bitRGB Real.rpow (11 : uchar) =
      (((11 : ℝ) / 255 + 0.055) / 1.1055) ^ (2.4 : ℝ) := by
    unfold linearize8bitRGB
    simp only [h11]
    rw [if_neg (by norm_num)]
    norm_num
  rw [e10, e11]
  have hbase0 : (0 : ℝ) ≤ ((11 : ℝ) / 255 + 0.055) / 1.1055 := by norm_num
  have hpow : ((((11 : ℝ) / 255 + 0.055) / 1.1055) ^ (2.4 : ℝ)) ^ (5 : ℕ) =
      (((11 : ℝ) / 255 + 0.055) / 1.1055) ^ (12 : ℕ) := by
    rw [← Real.rpow_natCast, ← Real.rpow_mul hbase0, ← Real.rpow_natCast]
    norm_num
  have hlt : (((11 : ℝ) / 255 + 0.055) / 1.1055) ^ (12 : ℕ) <
      ((10 : ℝ) / 255 / 12.92) ^ (5 : ℕ) := by
    norm_num
  by_contra hcon
  push_neg at hcon
  have hy0 : (0 : ℝ) ≤ (10 : ℝ) / 255 / 12.92 := by norm_num
  have := pow_le_pow_left₀ hy0 hcon 5
  rw [hpow] at this
  linarith

end tik
